import Mathlib

/-!
Shallow embedding of the hierarchical geographic aggregation engine of
`src/data_jobs/jobs/processing_geral.py` (qualification tables, narrative
helpers) and `src/data_jobs/jobs/processing_geral_2.py` (service and
approved-procedure tables), together with theorems settling the claims
about them.

Modelling conventions:
* Python strings are Lean `String`s; the character-level operations
  (`upper`, `strip`, `split`, `title`, the regexes actually used) are
  embedded over `List Char`.  `str.upper` is modelled on ASCII plus the
  accented letters that the normalizer's substitution table mentions.
* A pandas `DataFrame` is a `List` of records; a missing parquet file (or a
  load failure) is the `none` case of an `Option` input.
* The column search of `gerar_tabela_cnes_hab` (`mapa_colunas`) operates on
  the data file's real column names; its outcome is modelled as presence
  flags on the dataset value, and reading a column whose flag is off is the
  `KeyError` the Python code would raise (`Except.error`).
* Numbers that pandas keeps as floats (the two OCI measures) are `ℚ`.
-/

set_option linter.unusedVariables false

/-! ### Character-level helpers (Python `str` semantics) -/

/-- Python's ASCII whitespace set (the `\s` class and `str.split`). -/
def pySpaceChars : List Char := [' ', '\t', '\n', '\r', '\x0b', '\x0c']

def isPySpace (c : Char) : Bool := decide (c ∈ pySpaceChars)

/-- Association-list lookup for characters. -/
def dictGetChar (k : Char) : List (Char × Char) → Option Char
  | [] => none
  | (k', v) :: t => if k' = k then some v else dictGetChar k t

/-- Lowercase accented letters together with their Python uppercase forms;
these are the letters the normalizer's substitution table can receive. -/
def acentosMinusculos : List (Char × Char) :=
  [('á','Á'),('à','À'),('â','Â'),('ã','Ã'),('ä','Ä'),
   ('é','É'),('ê','Ê'),('ë','Ë'),
   ('í','Í'),('î','Î'),('ï','Ï'),
   ('ó','Ó'),('ô','Ô'),('õ','Õ'),('ö','Ö'),
   ('ú','Ú'),('ü','Ü'),('û','Û'),
   ('ç','Ç'),('ñ','Ñ')]

/-- The substitution table of step 1 of `padronizar_nome_geografico`:
uppercase accented letters mapped to their plain ASCII counterparts. -/
def acentosMaiusculos : List (Char × Char) :=
  [('Á','A'),('À','A'),('Â','A'),('Ã','A'),('Ä','A'),
   ('É','E'),('Ê','E'),('Ë','E'),
   ('Í','I'),('Î','I'),('Ï','I'),
   ('Ó','O'),('Ô','O'),('Õ','O'),('Ö','O'),
   ('Ú','U'),('Ü','U'),('Û','U'),
   ('Ç','C'),('Ñ','N')]

/-- Python `str.upper`, per character (ASCII plus the accent table). -/
def pyUpperChar (c : Char) : Char :=
  match dictGetChar c acentosMinusculos with
  | some u => u
  | none => c.toUpper

/-- Python `str.lower`, per character (ASCII plus the accent table). -/
def pyLowerChar (c : Char) : Char :=
  match dictGetChar c (acentosMinusculos.map (fun p => (p.2, p.1))) with
  | some l => l
  | none => c.toLower

/-- Python `nome.replace('Á','A')...` (step 1 of the normalizer). -/
def tiraAcento (c : Char) : Char := (dictGetChar c acentosMaiusculos).getD c

/-- Python `str.strip()` on the character list. -/
def pyStrip (l : List Char) : List Char :=
  ((l.dropWhile isPySpace).reverse.dropWhile isPySpace).reverse

/-- Is the character cased, in the sense of Python's `str.title`? -/
def pyCased (c : Char) : Bool :=
  c.isAlpha || (dictGetChar c acentosMinusculos).isSome
    || (dictGetChar c acentosMaiusculos).isSome

/-- Python `str.title`: uppercase a cased character after an uncased one,
lowercase a cased character after a cased one. -/
def pyTitleChars : Bool → List Char → List Char
  | _, [] => []
  | prevCased, c :: t =>
    if pyCased c then
      (if prevCased then pyLowerChar c else pyUpperChar c) :: pyTitleChars true t
    else
      c :: pyTitleChars false t

def pyTitle (s : String) : String := String.mk (pyTitleChars false s.data)

/-- The regex `^\d{3,4}[\-\s]` of the normalizer and of `get_descricao`:
when the text starts with a 3- or 4-digit administrative code followed by a
separator, return the remainder after the match (greedy, 4 digits first). -/
def codigoNumericoInicial : List Char → Option (List Char)
  | d1 :: d2 :: d3 :: d4 :: resto =>
    if d1.isDigit && d2.isDigit && d3.isDigit then
      if d4.isDigit then
        match resto with
        | s :: resto2 => if s = '-' || isPySpace s then some resto2 else none
        | [] => none
      else if d4 = '-' || isPySpace d4 then some resto else none
    else none
  | _ => none

def temCodigoInicial (l : List Char) : Bool := (codigoNumericoInicial l).isSome

/-- `re.sub(r'^\d{3,4}[\-\s]', '', nome)` guarded by the matching test. -/
def tiraCodigo (l : List Char) : List Char := (codigoNumericoInicial l).getD l

/-- The characters of the regex class `[A-Z0-9]`. -/
def CHARS_BONS : List Char :=
  ['A','B','C','D','E','F','G','H','I','J','K','L','M',
   'N','O','P','Q','R','S','T','U','V','W','X','Y','Z',
   '0','1','2','3','4','5','6','7','8','9']

def ehBomChar (c : Char) : Bool := decide (c ∈ CHARS_BONS)

/-- Step 3 of the normalizer (`re.sub(r'[^A-Z0-9\s]', ' ', nome)`): any
character that is not an uppercase ASCII letter, a digit or whitespace
becomes a space. -/
def mantemAlfaNum (c : Char) : Char :=
  if ehBomChar c || isPySpace c then c else ' '

/-- Helper of `palavras`: fold building whitespace-separated segments
(including empty ones, like `re`-style splitting on every space). -/
def segmentos (l : List Char) : List (List Char) :=
  l.foldr
    (fun c acc =>
      if isPySpace c then [] :: acc
      else
        match acc with
        | [] => [[c]]
        | w :: ws => (c :: w) :: ws)
    [[]]

/-- Python `nome.split()`: whitespace-separated words, empties dropped. -/
def palavras (l : List Char) : List (List Char) :=
  (segmentos l).filter (fun w => !w.isEmpty)

/-- Python `' '.join(ws)`. -/
def juntaEspaco : List (List Char) → List Char
  | [] => []
  | [w] => w
  | w :: ws => w ++ ' ' :: juntaEspaco ws

/-! ### `padronizar_nome_geografico` (identical in both source files) -/

/-- `padronizar_nome_geografico`: uppercase and strip, drop accents, drop a
leading 3–4 digit code with separator, replace special characters by
spaces, collapse whitespace runs, strip.  (The `pd.isna`/`None` guard of
the source returns `''`; string inputs are modelled here.) -/
def padronizar_nome_geografico (s : String) : String :=
  let l1 := pyStrip (s.data.map pyUpperChar)
  let l2 := l1.map tiraAcento
  let l3 := tiraCodigo l2
  let l4 := l3.map mantemAlfaNum
  let l5 := juntaEspaco (palavras l4)
  String.mk (pyStrip l5)

/-! ### Number formatting (`formatar_populacao`, `formatar_valor_monetario`)

The module-level `locale.setlocale` cascade of both files selects the
Brazilian locale; the embedding renders `locale.format_string` under that
locale (the manual fallback of the source produces the same text). -/

/-- Insert a thousands dot after every three characters of a reversed digit
list (`locale.format_string('%d', ·, grouping=True)` under `pt_BR`). -/
def grupo3 : List Char → List Char
  | a :: b :: c :: d :: resto => a :: b :: c :: '.' :: grupo3 (d :: resto)
  | l => l

def milharesNat (n : ℕ) : String :=
  String.mk ((grupo3 (Nat.toDigits 10 n).reverse).reverse)

def milharesInt (n : ℤ) : String :=
  if n < 0 then "-" ++ milharesNat n.natAbs else milharesNat n.natAbs

def valorDigitos (l : List Char) : ℕ :=
  l.foldl (fun a c => a * 10 + (c.toNat - '0'.toNat)) 0

/-- Digit run accepted by Python `int(str)` (after sign handling). -/
def pyParseIntDigitos (l : List Char) : Option ℕ :=
  if !l.isEmpty && l.all Char.isDigit then some (valorDigitos l) else none

/-- Python `int()` applied to a string: optional surrounding whitespace,
optional sign, then decimal digits; anything else raises `ValueError`
(`none` here). -/
def pyParseInt (s : String) : Option ℤ :=
  match pyStrip s.data with
  | '-' :: resto => (pyParseIntDigitos resto).map (fun n => -(n : ℤ))
  | '+' :: resto => (pyParseIntDigitos resto).map (fun n => (n : ℤ))
  | l => (pyParseIntDigitos l).map (fun n => (n : ℤ))

/-- Python `int()` applied to a float: truncation toward zero
(`num.tdiv den` on the exact rational). -/
def truncaRat (q : ℚ) : ℤ := Int.tdiv q.num (q.den : ℤ)

/-- The rational `n`, in the kernel-computable normal form. -/
def intQ (n : ℤ) : ℚ := Rat.normalize n 1 (by decide)

/-- Rational addition through `Rat.normalize` (definitionally the same
value as `+`, see `ratSoma_eq_add`; this spelling evaluates inside the
kernel). -/
def ratSoma (a b : ℚ) : ℚ :=
  Rat.normalize (a.num * (b.den : ℤ) + b.num * (a.den : ℤ)) (a.den * b.den)
    (Nat.mul_ne_zero a.den_nz b.den_nz)

theorem ratSoma_eq_add (a b : ℚ) : ratSoma a b = a + b := by
  rw [Rat.add_def]; rfl

/-- `Series.sum` over rationals. -/
def somaLista (l : List ℚ) : ℚ := l.foldr ratSoma (intQ 0)

theorem somaLista_eq_sum (l : List ℚ) : somaLista l = l.sum := by
  induction l with
  | nil => unfold somaLista; rw [List.sum_nil]; rfl
  | cons a t ih =>
    unfold somaLista at *
    rw [List.foldr_cons, List.sum_cons, ih, ratSoma_eq_add]

/-- The Python values `formatar_populacao` can receive. -/
inductive PyVal where
  | none
  | int (n : ℤ)
  | float (q : ℚ)
  | str (s : String)
deriving DecidableEq

/-- `int(pop)` for the modelled value kinds (`Option.none` = exception). -/
def pyValInt : PyVal → Option ℤ
  | .none => Option.none
  | .int n => some n
  | .float q => some (truncaRat q)
  | .str s => pyParseInt s

/-- Python `str(pop)` (only the `.str` case is claim-relevant). -/
def pyValStr : PyVal → String
  | .none => "None"
  | .int n => toString n
  | .float q => toString q
  | .str s => s

/-- `formatar_populacao`: `'0'` for missing input, thousands-grouped
`int(pop)` otherwise, and — via the chain of `except` fallbacks of the
source — `str(pop)` when the value cannot be coerced to an integer. -/
def formatar_populacao (pop : PyVal) : String :=
  match pop with
  | .none => "0"
  | p =>
    match pyValInt p with
    | some n => milharesInt n
    | Option.none => pyValStr p

/-- Count formatting as used by the table generators (`len`, sums). -/
def fmtN (n : ℕ) : String := formatar_populacao (.int (n : ℤ))

/-- Count formatting for the OCI quantity sums (floats in the source). -/
def fmtQ (q : ℚ) : String := formatar_populacao (.float q)

/-- The cent count of `%.2f`: round half to even applied to `100 * q`,
written over the numerator and denominator so that it evaluates inside
the kernel. -/
def arredondaCentavos (q : ℚ) : ℤ :=
  let n := q.num * 100
  let d := (q.den : ℤ)
  let fl := Int.fdiv n d
  let resto := n - fl * d
  if 2 * resto < d then fl
  else if d < 2 * resto then fl + 1
  else if fl % 2 = 0 then fl else fl + 1

/-- `formatar_valor_monetario`: `locale.format_string('%.2f', float(valor),
grouping=True)` under `pt_BR` — thousands dots, decimal comma, two fixed
decimals.  (The `pd.isna` guard returning `'0,00'` concerns missing values,
which the modelled call sites never produce.) -/
def formatar_valor_monetario (valor : ℚ) : String :=
  let cents := arredondaCentavos valor
  let a := cents.natAbs
  (if cents < 0 then "-" else "")
    ++ milharesNat (a / 100) ++ ","
    ++ (if a % 100 < 10 then "0" else "")
    ++ String.mk (Nat.toDigits 10 (a % 100))

/-! ### `get_descricao` (identical in both source files) -/

/-- Python `parts[-1].isdigit()`. -/
def ehDigitosStr (l : List Char) : Bool := !l.isEmpty && l.all Char.isDigit

/-- Split off the text before the first `' '` (exactly the space character,
as Python `split(' ', ...)` does). -/
def quebraPrimeiroEspaco (l : List Char) : Option (List Char × List Char) :=
  match l.dropWhile (fun c => !(c = ' ')) with
  | [] => none
  | _ :: resto => some (l.takeWhile (fun c => !(c = ' ')), resto)

/-- Python `nome.split(' ', n)`: at most `n` splits, empties kept. -/
def divideEspacoMax : ℕ → List Char → List (List Char)
  | 0, l => [l]
  | n + 1, l =>
    match quebraPrimeiroEspaco l with
    | none => [l]
    | some (w, resto) => w :: divideEspacoMax n resto

/-- Python `nome.rsplit(' ', 1)` when a space exists: text before the last
space and the trailing token. -/
def quebraUltimoEspaco (l : List Char) : Option (List Char × List Char) :=
  match quebraPrimeiroEspaco l.reverse with
  | none => none
  | some (wr, restor) => some (restor.reverse, wr.reverse)

/-- Substring test: `sub in s` / `Series.str.contains` on the normalized
(regex-metacharacter-free) values the engines pass to it. -/
def containsSub (s sub : String) : Bool := decide (sub.data <:+: s.data)

/-- `get_descricao`: drop a leading numeric code, special-case names that
mention `RRAS`/`REGIAO DE SAUDE` (drop their first three space-separated
tokens when a fourth exists), drop a trailing all-digit token, and
title-case; `'-'` when everything is gone. -/
def get_descricao (nome : String) : String :=
  let l0 := nome.data
  let l1 := if temCodigoInicial l0 then pyStrip (tiraCodigo l0) else l0
  let sUp := String.mk (l1.map pyUpperChar)
  let rrasRes : Option String :=
    if !l1.isEmpty && (containsSub sUp "RRAS" || containsSub sUp "REGIAO DE SAUDE") then
      let partes := divideEspacoMax 3 l1
      if 3 < partes.length then some (pyTitle (String.mk (partes.getD 3 [])))
      else none
    else none
  match rrasRes with
  | some r => r
  | none =>
    let terminaDigito :=
      match (pyStrip l1).getLast? with
      | some c => c.isDigit
      | none => false
    let l2 :=
      if !l1.isEmpty && terminaDigito then
        match quebraUltimoEspaco l1 with
        | some (antes, ultimo) => if ehDigitosStr ultimo then antes else l1
        | none => l1
      else l1
    if !l2.isEmpty then pyTitle (String.mk l2) else "-"

/-! ### `mapear_selecao_geral` (both variants) -/

/-- A raw frontend selection: the `dados_selecao` dict. -/
abbrev Selecao := List (String × String)

/-- Python `dict.get` on an association list. -/
def dictGet (k : String) : List (String × String) → Option String
  | [] => none
  | (k', v) :: t => if k' = k then some v else dictGet k t

/-- Python `dict[k] = v`: replace in place or append. -/
def dictInsert : List (String × String) → String → String → List (String × String)
  | [], k, v => [(k, v)]
  | (k', v') :: t, k, v =>
    if k' = k then (k, v) :: t else (k', v') :: dictInsert t k v

/-- The `HIERARQUIA` list of `processing_geral.py`:
(frontend key, level name, internal column). -/
def HIERARQUIA : List (String × String × String) :=
  [("regiao", "REGIAO", "NO_REGIAO"),
   ("uf", "UF", "NO_UF"),
   ("macro", "MACRORREGIAO", "NO_MACRO_REG_SAUDE"),
   ("regiaoSaude", "REGIAO_SAUDE", "NO_REGIAO_SAUDE"),
   ("municipio", "MUNICIPIO", "NO_MUNICIPIO"),
   ("unidade", "TIPO_UNIDADE", "DS_TIPO_UNIDADE"),
   ("cnes", "CNES", "CO_CNES")]

/-- The `HIERARQUIA` list of `processing_geral_2.py` (accented level names
for the two middle tiers). -/
def HIERARQUIA_2 : List (String × String × String) :=
  [("regiao", "REGIAO", "NO_REGIAO"),
   ("uf", "UF", "NO_UF"),
   ("macro", "MACRORREGIÃO", "NO_MACRO_REG_SAUDE"),
   ("regiaoSaude", "REGIAO_SAUDE", "NO_REGIAO_SAUDE"),
   ("municipio", "MUNICÍPIO", "NO_MUNICIPIO"),
   ("unidade", "TIPO_UNIDADE", "DS_TIPO_UNIDADE"),
   ("cnes", "CNES", "CO_CNES")]

/-- The body of the `for` loop of `mapear_selecao_geral`. -/
def passoSelecao (sel : Selecao) (acc : String × List (String × String))
    (e : String × String × String) : String × List (String × String) :=
  match dictGet e.1 sel with
  | none => acc
  | some v =>
    if v ≠ "" ∧ padronizar_nome_geografico v ≠ "TODOS" then
      (e.2.1,
       if e.2.1 = "CNES" then dictInsert acc.2 "CO_CNES" v
       else dictInsert acc.2 e.2.2 (padronizar_nome_geografico v))
    else acc

/-- `mapear_selecao_geral` of `processing_geral.py`: returns
(`NIVEL_AGREGACAO`, `FILTROS`). -/
def mapear_selecao_geral (sel : Selecao) : String × List (String × String) :=
  HIERARQUIA.foldl (passoSelecao sel) ("NACIONAL", [])

/-- `mapear_selecao_geral` of `processing_geral_2.py`. -/
def mapear_selecao_geral_2 (sel : Selecao) : String × List (String × String) :=
  HIERARQUIA_2.foldl (passoSelecao sel) ("NACIONAL", [])

/-- Does the hierarchy entry `e` carry a non-trivial value in `sel`
(present, non-empty, not normalizing to the `'TODOS'` sentinel)? -/
def naoTrivial (sel : Selecao) (e : String × String × String) : Bool :=
  match dictGet e.1 sel with
  | some v => decide (v ≠ "" ∧ padronizar_nome_geografico v ≠ "TODOS")
  | none => false

/-! ### Pandas-style list helpers -/

/-- Ascending sort of strings (`sort_values`, Python `sorted`). -/
def sortStr (l : List String) : List String := List.insertionSort (· ≤ ·) l

/-- Helper of `uniqueFirst`: drop every element already seen. -/
def uniqueFirstAux {α : Type} [DecidableEq α] : List α → List α → List α
  | _, [] => []
  | vistos, a :: t =>
    if a ∈ vistos then uniqueFirstAux vistos t
    else a :: uniqueFirstAux (a :: vistos) t

/-- `Series.unique` / dict-key order: distinct values, first occurrence
first. -/
def uniqueFirst {α : Type} [DecidableEq α] (l : List α) : List α :=
  uniqueFirstAux [] l

/-- `column.sort_values().unique()`: the distinct values, ascending. -/
def sortedUnique (l : List String) : List String := uniqueFirst (sortStr l)

/-- Helper of `dedupPrimeiro`: drop every row whose key was already seen. -/
def dedupPrimeiroAux {α : Type} (chave : α → String) :
    List String → List α → List α
  | _, [] => []
  | vistos, a :: t =>
    if chave a ∈ vistos then dedupPrimeiroAux chave vistos t
    else a :: dedupPrimeiroAux chave (chave a :: vistos) t

/-- `drop_duplicates(subset=[...])`: keep the first row of each key. -/
def dedupPrimeiro {α : Type} (chave : α → String) (l : List α) : List α :=
  dedupPrimeiroAux chave [] l

/-- `Series.value_counts()`: distinct values with their multiplicities,
sorted by descending count (stably over first appearance, a deterministic
refinement of the pandas tie order). -/
def valueCounts (l : List String) : List (String × ℕ) :=
  List.insertionSort (fun a b => b.2 ≤ a.2)
    ((uniqueFirst l).map (fun v => (v, l.count v)))

/-- Lexicographic order on string pairs (`groupby` over two columns). -/
def parLe (a b : String × String) : Prop := a.1 < b.1 ∨ (a.1 = b.1 ∧ a.2 ≤ b.2)

instance (a b : String × String) : Decidable (parLe a b) := by
  unfold parLe; infer_instance

/-- Distinct string pairs in ascending lexicographic order (`groupby` on a
pair of columns iterates its keys this way). -/
def sortedUniquePares (l : List (String × String)) : List (String × String) :=
  uniqueFirst (List.insertionSort parLe l)

/-! ### `UF_TO_REGIAO` (identical in both files) -/

def UF_TO_REGIAO : List (String × String) :=
  [("ACRE", "NORTE"), ("AMAPA", "NORTE"), ("AMAZONAS", "NORTE"),
   ("PARA", "NORTE"), ("RONDONIA", "NORTE"), ("RORAIMA", "NORTE"),
   ("TOCANTINS", "NORTE"),
   ("ALAGOAS", "NORDESTE"), ("BAHIA", "NORDESTE"), ("CEARA", "NORDESTE"),
   ("MARANHAO", "NORDESTE"), ("PARAIBA", "NORDESTE"),
   ("PERNAMBUCO", "NORDESTE"), ("PIAUI", "NORDESTE"),
   ("RIO GRANDE DO NORTE", "NORDESTE"), ("SERGIPE", "NORDESTE"),
   ("ESPIRITO SANTO", "SUDESTE"), ("MINAS GERAIS", "SUDESTE"),
   ("RIO DE JANEIRO", "SUDESTE"), ("SAO PAULO", "SUDESTE"),
   ("PARANA", "SUL"), ("RIO GRANDE DO SUL", "SUL"),
   ("SANTA CATARINA", "SUL"),
   ("DISTRITO FEDERAL", "CENTRO-OESTE"), ("GOIAS", "CENTRO-OESTE"),
   ("MATO GROSSO", "CENTRO-OESTE"), ("MATO GROSSO DO SUL", "CENTRO-OESTE")]

/-- `UF_TO_REGIAO.get(uf, 'NÃO IDENTIFICADA')` as `gerar_tabela_cnes_hab`
uses it. -/
def regiaoDaUF (uf : String) : String :=
  (dictGet uf UF_TO_REGIAO).getD "NÃO IDENTIFICADA"

/-- `uf_to_regiao_padronizado` of the two loaders in
`processing_geral_2.py`. -/
def ufParaRegiaoPadronizado : List (String × String) :=
  UF_TO_REGIAO.map (fun p =>
    (padronizar_nome_geografico p.1, padronizar_nome_geografico p.2))

/-- `df['NO_UF'].map(uf_to_regiao_padronizado).fillna('NAO IDENTIFICADO')`. -/
def regiaoDaUFPadr (uf : String) : String :=
  (dictGet uf ufParaRegiaoPadronizado).getD "NAO IDENTIFICADO"

/-- `[uf for uf, reg in UF_TO_REGIAO.items() if
padronizar_nome_geografico(reg) == regiao_selecionada]`. -/
def ufsDaRegiaoPadr (regsel : String) : List String :=
  (UF_TO_REGIAO.filter (fun p =>
    decide (padronizar_nome_geografico p.2 = regsel))).map (fun p => p.1)

/-- `[uf for uf, reg in UF_TO_REGIAO.items() if reg == regiao]` (the raw
comparison used inside REGRAS 5–8). -/
def ufsDaRegiaoBruta (reg : String) : List String :=
  (UF_TO_REGIAO.filter (fun p => decide (p.2 = reg))).map (fun p => p.1)

def pyUpperStr (s : String) : String := String.mk (s.data.map pyUpperChar)

def pyStripStr (s : String) : String := String.mk (pyStrip s.data)

/-! ### Shared filter mask of `processing_geral_2.py` (services and OCI)

Both generators run the same loop over `filtros.items()`: skip entries whose
column is absent from the frame, match `NO_MACRO_REG_SAUDE` and
`NO_REGIAO_SAUDE` by substring containment, everything else by equality. -/

def filtroLinha (cols : List String) (obtem : String → String)
    (filtros : List (String × String)) : Bool :=
  filtros.all (fun p =>
    if p.1 ∈ cols then
      if p.1 = "NO_MACRO_REG_SAUDE" ∨ p.1 = "NO_REGIAO_SAUDE" then
        containsSub (obtem p.1) p.2
      else decide (obtem p.1 = p.2)
    else true)

/-! ### Services dataset (`consolidado_cnes_serv.parquet`) -/

/-- A raw row of the services parquet, restricted to
`PARQUET_COLUMNS_SERV_RAW` and already renamed to the internal
identifiers of `PARQUET_COLUMN_SERV_RENAMING`. -/
structure RowSrv where
  servico : String
  uf : String
  macroSaude : String
  regiaoSaude : String
  municipio : String
  tipoUnidade : String
  cnes : String
  fantasia : String
deriving DecidableEq

/-- A processed services row: every listed column normalized, `NO_REGIAO`
derived from the state, `CO_CNES` kept as its string form. -/
structure RowSrvL where
  servico : String
  uf : String
  regiao : String
  macroSaude : String
  regiaoSaude : String
  municipio : String
  tipoUnidade : String
  cnes : String
  fantasia : String
deriving DecidableEq

/-- Per-row processing of the services loader: normalization of every
listed column, region derivation, code kept as text. -/
def srvCarregaLinha (r : RowSrv) : RowSrvL :=
  { servico := padronizar_nome_geografico r.servico
    uf := padronizar_nome_geografico r.uf
    regiao := regiaoDaUFPadr (padronizar_nome_geografico r.uf)
    macroSaude := padronizar_nome_geografico r.macroSaude
    regiaoSaude := padronizar_nome_geografico r.regiaoSaude
    municipio := padronizar_nome_geografico r.municipio
    tipoUnidade := padronizar_nome_geografico r.tipoUnidade
    cnes := r.cnes
    fantasia := padronizar_nome_geografico r.fantasia }

/-- `_carregar_base_cnes_srv`: `none` models a missing file, a read failure
or an unresolvable required column (`read_parquet(columns=...)` raises and
the `except` returns `None`). -/
def _carregar_base_cnes_srv (raw : Option (List RowSrv)) : Option (List RowSrvL) :=
  raw.map (fun rows => rows.map srvCarregaLinha)

/-- The columns of the processed services frame. -/
def SRV_COLUNAS : List String :=
  ["NO_SERVICO", "NO_UF", "NO_MACRO_REG_SAUDE", "NO_REGIAO_SAUDE",
   "NO_MUNICIPIO", "CO_CNES", "NO_FANTASIA", "DS_TIPO_UNIDADE", "NO_REGIAO"]

def srvObtem (r : RowSrvL) (c : String) : String :=
  if c = "NO_SERVICO" then r.servico
  else if c = "NO_UF" then r.uf
  else if c = "NO_REGIAO" then r.regiao
  else if c = "NO_MACRO_REG_SAUDE" then r.macroSaude
  else if c = "NO_REGIAO_SAUDE" then r.regiaoSaude
  else if c = "NO_MUNICIPIO" then r.municipio
  else if c = "DS_TIPO_UNIDADE" then r.tipoUnidade
  else if c = "CO_CNES" then r.cnes
  else if c = "NO_FANTASIA" then r.fantasia
  else ""

/-- Step 1 of `gerar_tabela_cnes_srv`: the filter mask over the frame. -/
def srvFiltrar (filtros : List (String × String)) (df : List RowSrvL) :
    List RowSrvL :=
  df.filter (fun r => filtroLinha SRV_COLUNAS (srvObtem r) filtros)

/-- `df_trabalho` of `gerar_tabela_cnes_srv`: the frame after the
`if filtros:` filter application. -/
def srvTrabalho (filtros : List (String × String)) (df : List RowSrvL) :
    List RowSrvL :=
  if filtros.isEmpty then df else srvFiltrar filtros df

/-- CNES detail rows of a municipality block (`groupby(['CO_CNES',
'NO_FANTASIA']).sum()` over the deduplicated count base). -/
def srvLinhasCnes (baseMun : List RowSrvL) : List (List String) :=
  (sortedUniquePares (baseMun.map (fun r => (r.cnes, r.fantasia)))).map (fun p =>
    [" - - - - - CNES", get_descricao p.2 ++ " (" ++ p.1 ++ ")",
     fmtN (baseMun.countP (fun r => decide (r.cnes = p.1 ∧ r.fantasia = p.2)))])

/-- Municipality level of the services walk (with the CNES detail guard). -/
def srvBlocoMunicipio (nivel : String) (baseRs : List RowSrvL) :
    List (List String) :=
  (sortedUnique (baseRs.map (fun r => r.municipio))).flatMap (fun mun =>
    let baseMun := baseRs.filter (fun r => decide (r.municipio = mun))
    [" - - - - MUNICÍPIO", get_descricao mun, fmtN baseMun.length] ::
      (if nivel = "MUNICÍPIO" ∨ nivel = "TIPO_UNIDADE" ∨ nivel = "CNES" then
        srvLinhasCnes baseMun
      else []))

/-- Health-region level of the services walk (CORTE 3 after the row). -/
def srvBlocoRegiaoSaude (nivel : String) (baseMac : List RowSrvL) :
    List (List String) :=
  (sortedUnique (baseMac.map (fun r => r.regiaoSaude))).flatMap (fun rsv =>
    let baseRs := baseMac.filter (fun r => decide (r.regiaoSaude = rsv))
    [" - - - REGIÃO DE SAÚDE", get_descricao rsv, fmtN baseRs.length] ::
      (if nivel = "UF" ∨ nivel = "MACRORREGIÃO" ∨ nivel = "REGIAO_SAUDE" then []
      else srvBlocoMunicipio nivel baseRs))

/-- Macro-health-region level of the services walk (CORTE 2 after the row). -/
def srvBlocoMacroSaude (nivel : String) (baseUf : List RowSrvL) :
    List (List String) :=
  (sortedUnique (baseUf.map (fun r => r.macroSaude))).flatMap (fun mac =>
    let baseMac := baseUf.filter (fun r => decide (r.macroSaude = mac))
    [" - - MACRORREGIÃO", get_descricao mac, fmtN baseMac.length] ::
      (if nivel = "REGIAO" then [] else srvBlocoRegiaoSaude nivel baseMac))

/-- State level of the services walk (CORTE 1 after the row). -/
def srvBlocoUf (nivel : String) (baseReg : List RowSrvL) : List (List String) :=
  (sortedUnique (baseReg.map (fun r => r.uf))).flatMap (fun ufv =>
    let baseUf := baseReg.filter (fun r => decide (r.uf = ufv))
    [" - UF", get_descricao ufv, fmtN baseUf.length] ::
      (if nivel = "NACIONAL" then [] else srvBlocoMacroSaude nivel baseUf))

/-- Region level of the services walk. -/
def srvBlocoRegioes (nivel : String) (base : List RowSrvL) :
    List (List String) :=
  (sortedUnique (base.map (fun r => r.regiao))).flatMap (fun reg =>
    let baseReg := base.filter (fun r => decide (r.regiao = reg))
    ["REGIÃO", get_descricao reg, fmtN baseReg.length] ::
      srvBlocoUf nivel baseReg)

/-- The `NACIONAL` count of one service: distinct facilities holding it in
the whole processed frame, geography filter ignored. -/
def srvQuantNacional (df : List RowSrvL) (servico : String) : ℕ :=
  (uniqueFirst ((df.filter (fun r => decide (r.servico = servico))).map
    (fun r => r.cnes))).length

/-- One service's hierarchical table (header, national row, walk). -/
def srvTabela (df : List RowSrvL) (nivel servico : String)
    (base : List RowSrvL) : List (List String) :=
  ["NIVEL", "DESCRIÇÃO", "QUANT"] ::
    ["NACIONAL", "BRASIL", fmtN (srvQuantNacional df servico)] ::
    srvBlocoRegioes nivel base

/-- The result element shape shared by `gerar_tabela_cnes_hab` and
`gerar_tabela_cnes_srv` (`{'tipo_habilitacao': ..., 'dados': ...}`). -/
structure TabelaHab where
  tipo_habilitacao : String
  dados : List (List String)
deriving DecidableEq

/-- `gerar_tabela_cnes_srv`. -/
def gerar_tabela_cnes_srv (raw : Option (List RowSrv)) (sel : Selecao) :
    List TabelaHab :=
  match _carregar_base_cnes_srv raw with
  | none => []
  | some df =>
    if df.isEmpty then [] else
    let nivel := (mapear_selecao_geral_2 sel).1
    let filtros := (mapear_selecao_geral_2 sel).2
    let dft := srvTrabalho filtros df
    if dft.isEmpty then [] else
    (sortedUnique (dft.map (fun r => r.servico))).filterMap (fun servico =>
      let base := dedupPrimeiro (fun r => r.cnes)
        (dft.filter (fun r => decide (r.servico = servico)))
      if base.isEmpty then none else
      let tabela := srvTabela df nivel servico base
      if 2 < tabela.length then some ⟨servico, tabela⟩ else none)

/-! ### OCI dataset (`consolidado_oci.parquet`) -/

/-- A raw OCI row (columns `PARQUET_COLUMNS_OCI_RAW`, renamed).  The two
measures arrive as numbers; `pd.to_numeric(errors='coerce').fillna(0)` is
modelled by the inputs already being rationals. -/
structure RowOciRaw where
  uf : String
  macroSaude : String
  regiaoSaude : String
  municipio : String
  cnes : String
  fantasia : String
  tpRegistro : String
  subgrupo : String
  quantAprov : ℚ
  valorAprov : ℚ
deriving DecidableEq

/-- A processed OCI row (after the `PRINCIPAL` filter, normalization and
region derivation). -/
structure RowOci where
  uf : String
  regiao : String
  macroSaude : String
  regiaoSaude : String
  municipio : String
  cnes : String
  fantasia : String
  subgrupo : String
  quantAprov : ℚ
  valorAprov : ℚ
deriving DecidableEq

/-- Per-row processing of the OCI loader. -/
def ociCarregaLinha (r : RowOciRaw) : RowOci :=
  { uf := padronizar_nome_geografico r.uf
    regiao := regiaoDaUFPadr (padronizar_nome_geografico r.uf)
    macroSaude := padronizar_nome_geografico r.macroSaude
    regiaoSaude := padronizar_nome_geografico r.regiaoSaude
    municipio := padronizar_nome_geografico r.municipio
    cnes := r.cnes
    fantasia := padronizar_nome_geografico r.fantasia
    subgrupo := padronizar_nome_geografico r.subgrupo
    quantAprov := r.quantAprov
    valorAprov := r.valorAprov }

/-- `_carregar_base_sia_oci` (the `none` case models a missing file, a read
failure or an unresolvable required column); only `PRINCIPAL` records are
kept. -/
def _carregar_base_sia_oci (raw : Option (List RowOciRaw)) :
    Option (List RowOci) :=
  raw.map (fun rows =>
    (rows.filter (fun r => decide (r.tpRegistro = "PRINCIPAL"))).map
      ociCarregaLinha)

/-- The columns of the processed OCI frame (no facility-type column). -/
def OCI_COLUNAS : List String :=
  ["NO_UF", "NO_MACRO_REG_SAUDE", "NO_REGIAO_SAUDE", "NO_MUNICIPIO",
   "CO_CNES", "NO_FANTASIA", "NO_SUBGRUPO_PROCED", "QUANT_APROV",
   "VALOR_APROV", "NO_REGIAO"]

def ociObtem (r : RowOci) (c : String) : String :=
  if c = "NO_UF" then r.uf
  else if c = "NO_REGIAO" then r.regiao
  else if c = "NO_MACRO_REG_SAUDE" then r.macroSaude
  else if c = "NO_REGIAO_SAUDE" then r.regiaoSaude
  else if c = "NO_MUNICIPIO" then r.municipio
  else if c = "CO_CNES" then r.cnes
  else if c = "NO_FANTASIA" then r.fantasia
  else if c = "NO_SUBGRUPO_PROCED" then r.subgrupo
  else ""

/-- Step 1 of `gerar_tabela_sia_oci`: the filter mask over the frame. -/
def ociFiltrar (filtros : List (String × String)) (df : List RowOci) :
    List RowOci :=
  df.filter (fun r => filtroLinha OCI_COLUNAS (ociObtem r) filtros)

/-- `df_trabalho` of `gerar_tabela_sia_oci`. -/
def ociTrabalho (filtros : List (String × String)) (df : List RowOci) :
    List RowOci :=
  if filtros.isEmpty then df else ociFiltrar filtros df

def somaQuant (l : List RowOci) : ℚ := somaLista (l.map (fun r => r.quantAprov))

def somaValor (l : List RowOci) : ℚ := somaLista (l.map (fun r => r.valorAprov))

/-- CNES detail rows of an OCI municipality block. -/
def ociLinhasCnes (baseMun : List RowOci) : List (List String) :=
  (sortedUniquePares (baseMun.map (fun r => (r.cnes, r.fantasia)))).map (fun p =>
    let grupo := baseMun.filter (fun r => decide (r.cnes = p.1 ∧ r.fantasia = p.2))
    [" - - - - - CNES", get_descricao p.2 ++ " (" ++ p.1 ++ ")",
     fmtQ (somaQuant grupo), formatar_valor_monetario (somaValor grupo)])

/-- Municipality level of the OCI walk. -/
def ociBlocoMunicipio (nivel : String) (baseRs : List RowOci) :
    List (List String) :=
  (sortedUnique (baseRs.map (fun r => r.municipio))).flatMap (fun mun =>
    let baseMun := baseRs.filter (fun r => decide (r.municipio = mun))
    [" - - - - MUNICÍPIO", get_descricao mun, fmtQ (somaQuant baseMun),
      formatar_valor_monetario (somaValor baseMun)] ::
      (if nivel = "MUNICÍPIO" ∨ nivel = "TIPO_UNIDADE" ∨ nivel = "CNES" then
        ociLinhasCnes baseMun
      else []))

/-- Health-region level of the OCI walk (CORTE 3 after the row). -/
def ociBlocoRegiaoSaude (nivel : String) (baseMac : List RowOci) :
    List (List String) :=
  (sortedUnique (baseMac.map (fun r => r.regiaoSaude))).flatMap (fun rsv =>
    let baseRs := baseMac.filter (fun r => decide (r.regiaoSaude = rsv))
    [" - - - REGIÃO DE SAÚDE", get_descricao rsv, fmtQ (somaQuant baseRs),
      formatar_valor_monetario (somaValor baseRs)] ::
      (if nivel = "MACRORREGIÃO" ∨ nivel = "REGIAO_SAUDE" then []
      else ociBlocoMunicipio nivel baseRs))

/-- Macro-health-region level of the OCI walk (CORTE 2 after the row). -/
def ociBlocoMacroSaude (nivel : String) (baseUf : List RowOci) :
    List (List String) :=
  (sortedUnique (baseUf.map (fun r => r.macroSaude))).flatMap (fun mac =>
    let baseMac := baseUf.filter (fun r => decide (r.macroSaude = mac))
    [" - - MACRORREGIÃO", get_descricao mac, fmtQ (somaQuant baseMac),
      formatar_valor_monetario (somaValor baseMac)] ::
      (if nivel = "UF" then [] else ociBlocoRegiaoSaude nivel baseMac))

/-- State level of the non-national OCI walk (CORTE 1 after the row). -/
def ociBlocoUf (nivel : String) (baseRegiao : List RowOci) :
    List (List String) :=
  (sortedUnique (baseRegiao.map (fun r => r.uf))).flatMap (fun ufv =>
    let baseUf := baseRegiao.filter (fun r => decide (r.uf = ufv))
    [" - UF", get_descricao ufv, fmtQ (somaQuant baseUf),
      formatar_valor_monetario (somaValor baseUf)] ::
      (if nivel = "REGIAO" then [] else ociBlocoMacroSaude nivel baseUf))

/-- The hierarchical detail below the national row of one OCI table: the
`NACIONAL` branch walks regions and states of the full frame; the filtered
branch renders the affected region rows from the full frame and then walks
the last assigned `df_base_regiao`, exactly as the Python scoping does. -/
def ociDetalhe (df dft : List RowOci) (nivel : String)
    (filtros : List (String × String)) (sub : String) : List (List String) :=
  if nivel = "NACIONAL" then
    let regBase := df.filter (fun r => decide (r.subgrupo = sub))
    (sortedUnique (regBase.map (fun r => r.regiao))).flatMap (fun reg =>
      let baseReg := regBase.filter (fun r => decide (r.regiao = reg))
      ["REGIÃO", get_descricao reg, fmtQ (somaQuant baseReg),
        formatar_valor_monetario (somaValor baseReg)] ::
        (sortedUnique (baseReg.map (fun r => r.uf))).map (fun ufv =>
          let baseUf := baseReg.filter (fun r => decide (r.uf = ufv))
          [" - UF", get_descricao ufv, fmtQ (somaQuant baseUf),
            formatar_valor_monetario (somaValor baseUf)]))
  else
    let baseAgg := dft.filter (fun r => decide (r.subgrupo = sub))
    let par : List (List String) × List RowOci :=
      match dictGet "NO_REGIAO" filtros with
      | some regf =>
        let regFull := df.filter (fun r =>
          decide (r.subgrupo = sub ∧ r.regiao = regf))
        ([["REGIÃO", get_descricao regf, fmtQ (somaQuant regFull),
            formatar_valor_monetario (somaValor regFull)]],
         baseAgg.filter (fun r => decide (r.regiao = regf)))
      | none =>
        let regioes := uniqueFirst (baseAgg.map (fun r => r.regiao))
        (regioes.map (fun reg =>
          let regCompleta := df.filter (fun r =>
            decide (r.subgrupo = sub ∧ r.regiao = reg))
          ["REGIÃO", get_descricao reg, fmtQ (somaQuant regCompleta),
            formatar_valor_monetario (somaValor regCompleta)]),
         match regioes.getLast? with
         | some regUlt => baseAgg.filter (fun r => decide (r.regiao = regUlt))
         | none => [])
    par.1 ++ (if par.2.isEmpty then [] else ociBlocoUf nivel par.2)

/-- One procedure subgroup's hierarchical table. -/
def ociTabela (df dft : List RowOci) (nivel : String)
    (filtros : List (String × String)) (sub : String) : List (List String) :=
  let subCompleto := df.filter (fun r => decide (r.subgrupo = sub))
  ["NIVEL", "DESCRIÇÃO", "QUANTIDADE APROVADA", "VALOR APROVADO (R$)"] ::
    ["NACIONAL", "BRASIL", fmtQ (somaQuant subCompleto),
      formatar_valor_monetario (somaValor subCompleto)] ::
    ociDetalhe df dft nivel filtros sub

/-- The result element shape of `gerar_tabela_sia_oci`
(`{'subgrupo_procedimento': ..., 'dados': ...}`). -/
structure TabelaOci where
  subgrupo_procedimento : String
  dados : List (List String)
deriving DecidableEq

/-- `gerar_tabela_sia_oci`. -/
def gerar_tabela_sia_oci (raw : Option (List RowOciRaw)) (sel : Selecao) :
    List TabelaOci :=
  match _carregar_base_sia_oci raw with
  | none => []
  | some df =>
    if df.isEmpty then [] else
    let nivel := (mapear_selecao_geral_2 sel).1
    let filtros := (mapear_selecao_geral_2 sel).2
    let dft := ociTrabalho filtros df
    if dft.isEmpty then [] else
    (sortedUnique (dft.map (fun r => r.subgrupo))).filterMap (fun sub =>
      let tabela := ociTabela df dft nivel filtros sub
      if 2 < tabela.length then some ⟨sub, tabela⟩ else none)

/-! ### Qualifications dataset (`consolidado_cnes_hab.parquet`)

`gerar_tabela_cnes_hab` resolves its columns by pattern search over the
file's real column names (`padroes_busca`); a `BaseHab` carries the rows
and one presence flag per semantic column (the outcome of that search).
Reading an unresolved column (`df[None]`) is the `KeyError` branch of the
embedding, and the whole body runs under the source's catch-all
`try/except` that turns any exception into `[]`. -/

structure RowHab where
  habilitacao : String
  uf : String
  macroSaude : String
  regiaoSaude : String
  municipio : String
  tipoUnidade : String
  cnes : String
  fantasia : String
deriving DecidableEq

structure BaseHab where
  rows : List RowHab
  temHab : Bool
  temUF : Bool
  temMacro : Bool
  temRS : Bool
  temMunicipio : Bool
  temTipoUnidade : Bool
  temCnes : Bool
  temFantasia : Bool
deriving DecidableEq

/-- Step 4 of `gerar_tabela_cnes_hab`: normalize every resolved column. -/
def habPadronizada (d : BaseHab) : List RowHab :=
  d.rows.map (fun r =>
    { habilitacao := if d.temHab then padronizar_nome_geografico r.habilitacao else r.habilitacao
      uf := if d.temUF then padronizar_nome_geografico r.uf else r.uf
      macroSaude := if d.temMacro then padronizar_nome_geografico r.macroSaude else r.macroSaude
      regiaoSaude := if d.temRS then padronizar_nome_geografico r.regiaoSaude else r.regiaoSaude
      municipio := if d.temMunicipio then padronizar_nome_geografico r.municipio else r.municipio
      tipoUnidade := if d.temTipoUnidade then padronizar_nome_geografico r.tipoUnidade else r.tipoUnidade
      cnes := if d.temCnes then padronizar_nome_geografico r.cnes else r.cnes
      fantasia := if d.temFantasia then padronizar_nome_geografico r.fantasia else r.fantasia })

/-- The `filtros_aplicaveis` dict of step 6. -/
def FILTROS_APLICAVEIS : List (String × String) :=
  [("UF", "NO_UF"), ("MACRORREGIAO", "NO_MACRO_REG_SAUDE"),
   ("REGIAO_SAUDE", "NO_REGIAO_SAUDE"), ("MUNICIPIO", "NO_MUNICIPIO"),
   ("CNES", "CO_CNES")]

/-- `mapa_colunas.get(coluna) and coluna_real in df.columns`. -/
def habColunaPresente (d : BaseHab) (c : String) : Bool :=
  if c = "NO_UF" then d.temUF
  else if c = "NO_MACRO_REG_SAUDE" then d.temMacro
  else if c = "NO_REGIAO_SAUDE" then d.temRS
  else if c = "NO_MUNICIPIO" then d.temMunicipio
  else if c = "DS_TIPO_UNIDADE" then d.temTipoUnidade
  else if c = "CO_CNES" then d.temCnes
  else false

def habObtem (r : RowHab) (c : String) : String :=
  if c = "NO_UF" then r.uf
  else if c = "NO_MACRO_REG_SAUDE" then r.macroSaude
  else if c = "NO_REGIAO_SAUDE" then r.regiaoSaude
  else if c = "NO_MUNICIPIO" then r.municipio
  else if c = "DS_TIPO_UNIDADE" then r.tipoUnidade
  else if c = "CO_CNES" then r.cnes
  else ""

/-- Step 6 of `gerar_tabela_cnes_hab`: the region filter through
`UF_TO_REGIAO`, then the single direct equality filter of the selected
level (skipped when its column was not resolved). -/
def habFiltrada (d : BaseHab) (nivel : String)
    (filtros : List (String × String)) : List RowHab :=
  let rows := habPadronizada d
  let r1 :=
    if nivel = "REGIAO" then
      match dictGet "NO_REGIAO" filtros with
      | some regsel =>
        let ufs := ufsDaRegiaoPadr regsel
        if ufs.isEmpty then rows
        else rows.filter (fun r => decide (r.uf ∈ ufs))
      | none => rows
    else rows
  match dictGet nivel FILTROS_APLICAVEIS with
  | some colf =>
    match dictGet colf filtros with
    | some v =>
      if habColunaPresente d colf then
        r1.filter (fun r => decide (habObtem r colf = v))
      else r1
    | none => r1
  | none => r1

/-- `row[coluna_uf].upper().strip()` and the region inference of REGRA 2. -/
def habRegiaoDeLinha (r : RowHab) : String :=
  regiaoDaUF (pyStripStr (pyUpperStr r.uf))

/-- REGRA 2 (`NACIONAL`): every region (sorted, the unidentified bucket
dropped) with its states (sorted), counted over `df_total_hab`. -/
def habLinhasNacional (dfTotalHab : List RowHab) : List (List String) :=
  (sortStr ((uniqueFirst (dfTotalHab.map habRegiaoDeLinha)).filter
      (fun reg => decide (reg ≠ "NÃO IDENTIFICADA")))).flatMap (fun reg =>
    let emReg := dfTotalHab.filter (fun r => decide (habRegiaoDeLinha r = reg))
    ["REGIÃO", pyTitle reg, fmtN emReg.length] ::
      (sortStr (uniqueFirst (emReg.map (fun r =>
          pyStripStr (pyUpperStr r.uf))))).map (fun ufv =>
        [" - UF", pyTitle ufv,
         fmtN (emReg.countP (fun r =>
           decide (pyStripStr (pyUpperStr r.uf) = ufv)))]))

/-- REGRA 3 (`REGIAO`): the selected region, its states with data, and each
state's macro-regions by `value_counts`. -/
def habLinhasRegiao (d : BaseHab) (dfTipo : List RowHab) (regsel : String) :
    List (List String) :=
  let ufs := ufsDaRegiaoPadr regsel
  if ufs.isEmpty then [] else
  let dfRegiao := dfTipo.filter (fun r => decide (r.uf ∈ ufs))
  ["REGIÃO", pyTitle regsel, fmtN dfRegiao.length] ::
    (sortStr ufs).flatMap (fun ufv =>
      let dfUf := dfTipo.filter (fun r => decide (r.uf = ufv))
      if dfUf.length ≠ 0 then
        ["UF", pyTitle ufv, fmtN dfUf.length] ::
          (if d.temMacro then
            (valueCounts (dfUf.map (fun r => r.macroSaude))).flatMap (fun mq =>
              if mq.1 ≠ "" ∧ mq.1 ≠ "NAN" then
                [[" - MACRORREGIÃO", get_descricao mq.1, fmtN mq.2]]
              else [])
          else [])
      else [])

/-- REGRA 4 (`UF`): the selected state's true total, then its macro-regions
and their health regions by `value_counts` over the filtered slice. -/
def habLinhasUF (d : BaseHab) (dfTotalHab dfTipo : List RowHab)
    (ufsel : String) : List (List String) :=
  ["UF", pyTitle ufsel,
    fmtN ((dfTotalHab.filter (fun r => decide (r.uf = ufsel))).length)] ::
    (if d.temMacro then
      (valueCounts (dfTipo.map (fun r => r.macroSaude))).flatMap (fun mq =>
        if mq.1 ≠ "" ∧ mq.1 ≠ "NAN" then
          ["MACRORREGIÃO", get_descricao mq.1, fmtN mq.2] ::
            (if d.temRS then
              (valueCounts ((dfTipo.filter (fun r =>
                  decide (r.macroSaude = mq.1))).map
                  (fun r => r.regiaoSaude))).flatMap (fun rq =>
                if rq.1 ≠ "" ∧ rq.1 ≠ "NAN" then
                  [[" - REGIÃO DE SAUDE", get_descricao rq.1, fmtN rq.2]]
                else [])
            else [])
        else [])
    else [])

/-- `df[coluna]` when the column search found none: the `KeyError`. -/
def exige (b : Bool) : Except String Unit :=
  if b then .ok () else .error "KeyError: None"

/-- REGRA 5 (`MACRORREGIAO`): geographic context from the first filtered
row, the macro-region's true total, then health regions by `value_counts`. -/
def habLinhasMacroSaude (d : BaseHab) (dfTotalHab dfTipo : List RowHab)
    (macrosel : String) : Except String (List (List String)) :=
  match dfTipo with
  | [] => .ok []
  | r0 :: _ => do
    let regiaoMacro := regiaoDaUF r0.uf
    let ctx :=
      if regiaoMacro ≠ "NÃO IDENTIFICADA" then
        [["REGIÃO", pyTitle regiaoMacro,
          fmtN ((dfTotalHab.filter (fun r =>
            decide (r.uf ∈ ufsDaRegiaoBruta regiaoMacro))).length)]]
      else []
    let linhaUf := ["UF", pyTitle r0.uf,
      fmtN ((dfTotalHab.filter (fun r => decide (r.uf = r0.uf))).length)]
    exige d.temMacro
    let linhaMacro := ["MACRORREGIÃO", get_descricao macrosel,
      fmtN ((dfTotalHab.filter (fun r =>
        decide (r.macroSaude = macrosel))).length)]
    let linhasRs :=
      if d.temRS then
        (valueCounts (dfTipo.map (fun r => r.regiaoSaude))).flatMap (fun rq =>
          if rq.1 ≠ "" ∧ rq.1 ≠ "NAN" then
            [[" - REGIÃO DE SAUDE", get_descricao rq.1, fmtN rq.2]]
          else [])
      else []
    .ok (ctx ++ linhaUf :: linhaMacro :: linhasRs)

/-- REGRA 6 (`REGIAO_SAUDE`): context rows, the health region's true total,
then municipalities by `value_counts`. -/
def habLinhasRegiaoSaude (d : BaseHab) (dfTotalHab dfTipo : List RowHab)
    (rssel : String) : Except String (List (List String)) :=
  match dfTipo with
  | [] => .ok []
  | r0 :: _ => do
    exige d.temMacro
    let regiaoRs := regiaoDaUF r0.uf
    let ctx :=
      if regiaoRs ≠ "NÃO IDENTIFICADA" then
        [["REGIÃO", pyTitle regiaoRs,
          fmtN ((dfTotalHab.filter (fun r =>
            decide (r.uf ∈ ufsDaRegiaoBruta regiaoRs))).length)]]
      else []
    let linhaUf := ["UF", pyTitle r0.uf,
      fmtN ((dfTotalHab.filter (fun r => decide (r.uf = r0.uf))).length)]
    let linhaMacro := ["MACRORREGIÃO", get_descricao r0.macroSaude,
      fmtN ((dfTotalHab.filter (fun r =>
        decide (r.macroSaude = r0.macroSaude))).length)]
    exige d.temRS
    let linhaRs := ["REGIÃO DE SAUDE", get_descricao rssel,
      fmtN ((dfTotalHab.filter (fun r =>
        decide (r.regiaoSaude = rssel))).length)]
    let linhasMun :=
      if d.temMunicipio then
        (valueCounts (dfTipo.map (fun r => r.municipio))).flatMap (fun mq =>
          if mq.1 ≠ "" ∧ mq.1 ≠ "NAN" then
            [[" - MUNICIPIO", pyTitle mq.1, fmtN mq.2]]
          else [])
      else []
    .ok (ctx ++ linhaUf :: linhaMacro :: linhaRs :: linhasMun)

/-- REGRA 7 (`MUNICIPIO`): context rows, the municipality's true total,
then facility types with their facilities. -/
def habLinhasMunicipio (d : BaseHab) (dfTotalHab dfTipo : List RowHab)
    (munsel : String) : Except String (List (List String)) :=
  match dfTipo with
  | [] => .ok []
  | r0 :: _ => do
    exige d.temMacro
    exige d.temRS
    let regiaoMun := regiaoDaUF r0.uf
    let ctx :=
      if regiaoMun ≠ "NÃO IDENTIFICADA" then
        [["REGIÃO", pyTitle regiaoMun,
          fmtN ((dfTotalHab.filter (fun r =>
            decide (r.uf ∈ ufsDaRegiaoBruta regiaoMun))).length)]]
      else []
    let linhaUf := ["UF", pyTitle r0.uf,
      fmtN ((dfTotalHab.filter (fun r => decide (r.uf = r0.uf))).length)]
    let linhaMacro := ["MACRORREGIÃO", get_descricao r0.macroSaude,
      fmtN ((dfTotalHab.filter (fun r =>
        decide (r.macroSaude = r0.macroSaude))).length)]
    let linhaRs := ["REGIÃO DE SAUDE", get_descricao r0.regiaoSaude,
      fmtN ((dfTotalHab.filter (fun r =>
        decide (r.regiaoSaude = r0.regiaoSaude))).length)]
    exige d.temMunicipio
    let linhaMun := ["MUNICIPIO", pyTitle munsel,
      fmtN ((dfTotalHab.filter (fun r =>
        decide (r.municipio = munsel))).length)]
    let linhasTipo :=
      if d.temTipoUnidade && d.temCnes && d.temFantasia then
        (valueCounts (dfTipo.map (fun r => r.tipoUnidade))).flatMap (fun tq =>
          if tq.1 ≠ "" ∧ tq.1 ≠ "NAN" then
            let dfTipoEsp := dfTipo.filter (fun r =>
              decide (r.tipoUnidade = tq.1))
            [" - TIPO_UNIDADE", pyTitle tq.1, fmtN tq.2] ::
              (valueCounts (dfTipoEsp.map (fun r => r.cnes))).flatMap (fun cq =>
                if cq.1 ≠ "" ∧ cq.1 ≠ "NAN" then
                  -- `iloc[0]` of the nonempty-by-construction slice
                  let fant := ((dfTipoEsp.filter (fun r =>
                    decide (r.cnes = cq.1))).head?.map
                    (fun r => r.fantasia)).getD ""
                  [[" - - CNES", get_descricao fant ++ " (" ++ cq.1 ++ ")",
                    fmtN cq.2]]
                else [])
          else [])
      else []
    .ok (ctx ++ linhaUf :: linhaMacro :: linhaRs :: linhaMun :: linhasTipo)

/-- REGRA 8 (`CNES`): the facility with the qualification (context plus a
count of 1), or — when the filtered slice is empty — the facility found in
the whole base with zero rows. -/
def habLinhasCnesSel (d : BaseHab) (rows dfTotalHab dfTipo : List RowHab)
    (cnessel : String) : Except String (List (List String)) :=
  match dfTipo with
  | r0 :: _ => do
    exige d.temMacro
    exige d.temRS
    exige d.temMunicipio
    exige d.temTipoUnidade
    exige d.temFantasia
    let regiaoUni := regiaoDaUF r0.uf
    let ctx :=
      if regiaoUni ≠ "NÃO IDENTIFICADA" then
        [["REGIÃO", pyTitle regiaoUni,
          fmtN ((dfTotalHab.filter (fun r =>
            decide (r.uf ∈ ufsDaRegiaoBruta regiaoUni))).length)]]
      else []
    .ok (ctx ++
      ["UF", pyTitle r0.uf,
        fmtN ((dfTotalHab.filter (fun r => decide (r.uf = r0.uf))).length)] ::
      ["MACRORREGIÃO", get_descricao r0.macroSaude,
        fmtN ((dfTotalHab.filter (fun r =>
          decide (r.macroSaude = r0.macroSaude))).length)] ::
      ["REGIÃO DE SAUDE", get_descricao r0.regiaoSaude,
        fmtN ((dfTotalHab.filter (fun r =>
          decide (r.regiaoSaude = r0.regiaoSaude))).length)] ::
      ["MUNICIPIO", pyTitle r0.municipio,
        fmtN ((dfTotalHab.filter (fun r =>
          decide (r.municipio = r0.municipio))).length)] ::
      ["TIPO_UNIDADE", pyTitle r0.tipoUnidade,
        fmtN ((dfTotalHab.filter (fun r =>
          decide (r.tipoUnidade = r0.tipoUnidade))).length)] ::
      [[" - CNES", get_descricao r0.fantasia ++ " (" ++ cnessel ++ ")", "1"]])
  | [] => do
    exige d.temCnes
    match rows.filter (fun r => decide (r.cnes = cnessel)) with
    | [] => .ok []
    | r0 :: _ => do
      exige d.temMacro
      exige d.temRS
      exige d.temMunicipio
      let regiaoUni := regiaoDaUF r0.uf
      let ctx :=
        if regiaoUni ≠ "NÃO IDENTIFICADA" then
          [["REGIÃO", pyTitle regiaoUni,
            fmtN ((dfTotalHab.filter (fun r =>
              decide (r.uf ∈ ufsDaRegiaoBruta regiaoUni))).length)]]
        else []
      .ok (ctx ++
        ["UF", pyTitle r0.uf,
          fmtN ((dfTotalHab.filter (fun r => decide (r.uf = r0.uf))).length)] ::
        ["MACRORREGIÃO", get_descricao r0.macroSaude,
          fmtN ((dfTotalHab.filter (fun r =>
            decide (r.macroSaude = r0.macroSaude))).length)] ::
        ["REGIÃO DE SAUDE", get_descricao r0.regiaoSaude,
          fmtN ((dfTotalHab.filter (fun r =>
            decide (r.regiaoSaude = r0.regiaoSaude))).length)] ::
        ["MUNICIPIO", pyTitle r0.municipio,
          fmtN ((dfTotalHab.filter (fun r =>
            decide (r.municipio = r0.municipio))).length)] ::
        ["TIPO_UNIDADE", "-", "0"] ::
        [[" - CNES", "Unidade Selecionada não possui esta habilitação", "0"]])

/-- The REGRA 2–8 `if`/`elif` chain below the national row. -/
def habCorpo (d : BaseHab) (rows : List RowHab) (nivel : String)
    (filtros : List (String × String)) (dfTotalHab dfTipo : List RowHab) :
    Except String (List (List String)) :=
  if nivel = "NACIONAL" then .ok (habLinhasNacional dfTotalHab)
  else if nivel = "REGIAO" ∧ (dictGet "NO_REGIAO" filtros).isSome then
    .ok (habLinhasRegiao d dfTipo ((dictGet "NO_REGIAO" filtros).getD ""))
  else if nivel = "UF" ∧ (dictGet "NO_UF" filtros).isSome then
    .ok (habLinhasUF d dfTotalHab dfTipo ((dictGet "NO_UF" filtros).getD ""))
  else if nivel = "MACRORREGIAO" ∧
      (dictGet "NO_MACRO_REG_SAUDE" filtros).isSome then
    habLinhasMacroSaude d dfTotalHab dfTipo
      ((dictGet "NO_MACRO_REG_SAUDE" filtros).getD "")
  else if nivel = "REGIAO_SAUDE" ∧
      (dictGet "NO_REGIAO_SAUDE" filtros).isSome then
    habLinhasRegiaoSaude d dfTotalHab dfTipo
      ((dictGet "NO_REGIAO_SAUDE" filtros).getD "")
  else if nivel = "MUNICIPIO" ∧ (dictGet "NO_MUNICIPIO" filtros).isSome then
    habLinhasMunicipio d dfTotalHab dfTipo
      ((dictGet "NO_MUNICIPIO" filtros).getD "")
  else if nivel = "CNES" ∧ (dictGet "CO_CNES" filtros).isSome then
    habLinhasCnesSel d rows dfTotalHab dfTipo
      ((dictGet "CO_CNES" filtros).getD "")
  else .ok []

/-- One qualification's table: fixed header, the national row over the
unfiltered frame, then the level-dependent body. -/
def habTabelaTipo (d : BaseHab) (rows : List RowHab) (nivel : String)
    (filtros : List (String × String)) (dfF : List RowHab) (tipo : String) :
    Except String (List (List String)) :=
  let dfTipo := dfF.filter (fun r => decide (r.habilitacao = tipo))
  let dfTotalHab := rows.filter (fun r => decide (r.habilitacao = tipo))
  match habCorpo d rows nivel filtros dfTotalHab dfTipo with
  | .ok corpo =>
    .ok (["NIVEL", "DESCRIÇÃO", "QUANT"] ::
      ["NACIONAL", "BRASIL", fmtN dfTotalHab.length] :: corpo)
  | .error e => .error e

/-- The loop body over qualification types (empty slices are skipped and a
table is kept only beyond header plus national row). -/
def habPasso (d : BaseHab) (rows : List RowHab) (nivel : String)
    (filtros : List (String × String)) (dfF : List RowHab)
    (acc : List TabelaHab) (tipo : String) : Except String (List TabelaHab) :=
  if (dfF.filter (fun r => decide (r.habilitacao = tipo))).isEmpty then .ok acc
  else
    match habTabelaTipo d rows nivel filtros dfF tipo with
    | .error e => .error e
    | .ok tb => .ok (if 2 < tb.length then acc ++ [⟨tipo, tb⟩] else acc)

/-- The body of `gerar_tabela_cnes_hab` inside its `try`. -/
def gerar_tabela_cnes_hab_nucleo (dfOpt : Option BaseHab) (sel : Selecao) :
    Except String (List TabelaHab) :=
  match dfOpt with
  | none => .ok []
  | some d =>
    if !(d.temHab && d.temUF) then .ok [] else
    let rows := habPadronizada d
    let nivel := (mapear_selecao_geral sel).1
    let filtros := (mapear_selecao_geral sel).2
    let dfF := habFiltrada d nivel filtros
    if dfF.isEmpty then .ok [] else
    List.foldlM (habPasso d rows nivel filtros dfF) []
      (uniqueFirst (dfF.map (fun r => r.habilitacao)))

/-- `gerar_tabela_cnes_hab`: the catch-all `except` turns any exception of
the body into the empty result. -/
def gerar_tabela_cnes_hab (dfOpt : Option BaseHab) (sel : Selecao) :
    List TabelaHab :=
  match gerar_tabela_cnes_hab_nucleo dfOpt sel with
  | .ok t => t
  | .error _ => []

/-! ### Lemmas about the selection resolver -/

theorem passoSelecao_trivial (sel : Selecao) (acc : String × List (String × String))
    (e : String × String × String) (h : naoTrivial sel e = false) :
    passoSelecao sel acc e = acc := by
  cases hg : dictGet e.1 sel with
  | none => simp only [passoSelecao, hg]
  | some v =>
    have h' : ¬(v ≠ "" ∧ padronizar_nome_geografico v ≠ "TODOS") := by
      unfold naoTrivial at h
      rw [hg] at h
      exact of_decide_eq_false h
    simp only [passoSelecao, hg, if_neg h']

theorem passoSelecao_naoTrivial (sel : Selecao) (acc : String × List (String × String))
    (e : String × String × String) (h : naoTrivial sel e = true) :
    ∃ v, dictGet e.1 sel = some v ∧
      passoSelecao sel acc e =
        (e.2.1,
         if e.2.1 = "CNES" then dictInsert acc.2 "CO_CNES" v
         else dictInsert acc.2 e.2.2 (padronizar_nome_geografico v)) := by
  unfold naoTrivial at h
  cases hg : dictGet e.1 sel with
  | none => rw [hg] at h; exact absurd h (by simp)
  | some v =>
    rw [hg] at h
    refine ⟨v, rfl, ?_⟩
    simp only [passoSelecao, hg, if_pos (of_decide_eq_true h)]

theorem foldl_passo_nivel (sel : Selecao) (l : List (String × String × String)) :
    ∀ acc, (l.foldl (passoSelecao sel) acc).1 =
      (match (l.filter (naoTrivial sel)).getLast? with
       | some e => e.2.1
       | none => acc.1) := by
  induction l with
  | nil => intro acc; rfl
  | cons e t ih =>
    intro acc
    rw [List.foldl_cons, List.filter_cons]
    cases h : naoTrivial sel e with
    | false =>
      simp only [Bool.false_eq_true, if_false]
      rw [passoSelecao_trivial sel acc e h]
      exact ih acc
    | true =>
      simp only [if_true]
      obtain ⟨v, _, hstep⟩ := passoSelecao_naoTrivial sel acc e h
      rw [hstep, ih]
      cases hf : t.filter (naoTrivial sel) with
      | nil => rfl
      | cons x xs =>
        obtain ⟨y, hy⟩ : ∃ y, (x :: xs).getLast? = some y :=
          Option.isSome_iff_exists.mp (by rw [List.getLast?_isSome]; simp)
        rw [List.getLast?_cons_cons, hy]

theorem foldl_passo_todoTrivial (sel : Selecao) (l : List (String × String × String))
    (h : l.filter (naoTrivial sel) = []) :
    ∀ acc, l.foldl (passoSelecao sel) acc = acc := by
  induction l with
  | nil => intro acc; rfl
  | cons e t ih =>
    intro acc
    rw [List.filter_cons] at h
    cases he : naoTrivial sel e with
    | true => rw [he] at h; simp at h
    | false =>
      rw [he] at h
      simp only [Bool.false_eq_true, if_false] at h
      rw [List.foldl_cons, passoSelecao_trivial sel acc e he]
      exact ih h acc

theorem dictInsert_ne_nil (l : List (String × String)) (k v : String) :
    dictInsert l k v ≠ [] := by
  cases l with
  | nil => simp [dictInsert]
  | cons p t => unfold dictInsert; split <;> simp

theorem foldl_passo_filtros (sel : Selecao) (l : List (String × String × String))
    (hl : ∀ e ∈ l, e.2.1 ≠ "NACIONAL") :
    ∀ acc : String × List (String × String),
      (acc.2 = [] ↔ acc.1 = "NACIONAL") →
      ((l.foldl (passoSelecao sel) acc).2 = [] ↔
        (l.foldl (passoSelecao sel) acc).1 = "NACIONAL") := by
  induction l with
  | nil => intro acc h; exact h
  | cons e t ih =>
    intro acc hacc
    rw [List.foldl_cons]
    refine ih (fun x hx => hl x (List.mem_cons_of_mem e hx)) _ ?_
    cases h : naoTrivial sel e with
    | false => rw [passoSelecao_trivial sel acc e h]; exact hacc
    | true =>
      obtain ⟨v, _, hstep⟩ := passoSelecao_naoTrivial sel acc e h
      rw [hstep]
      constructor
      · intro h2
        exfalso
        revert h2
        split <;> exact fun h2 => dictInsert_ne_nil _ _ _ h2
      · intro h1
        exact absurd h1 (hl e (List.mem_cons_self e t))

/-! ### Claims C2, C9, C10 -/

/-- Claim C2: for every raw selection, `mapear_selecao_geral` (in both
files) returns as level the most specific hierarchy entry whose supplied
value is non-empty and does not normalize to `'TODOS'` — the last such
entry of the hierarchy list — and returns `('NACIONAL', {})` when no such
entry exists. -/
theorem claim_C2_nivel_mais_especifico (sel : Selecao) :
    ((mapear_selecao_geral sel).1 =
      (match (HIERARQUIA.filter (naoTrivial sel)).getLast? with
       | some e => e.2.1
       | none => "NACIONAL") ∧
     (HIERARQUIA.filter (naoTrivial sel) = [] →
       mapear_selecao_geral sel = ("NACIONAL", []))) ∧
    ((mapear_selecao_geral_2 sel).1 =
      (match (HIERARQUIA_2.filter (naoTrivial sel)).getLast? with
       | some e => e.2.1
       | none => "NACIONAL") ∧
     (HIERARQUIA_2.filter (naoTrivial sel) = [] →
       mapear_selecao_geral_2 sel = ("NACIONAL", []))) := by
  refine ⟨⟨foldl_passo_nivel sel HIERARQUIA _, fun h => ?_⟩,
          ⟨foldl_passo_nivel sel HIERARQUIA_2 _, fun h => ?_⟩⟩
  · exact foldl_passo_todoTrivial sel HIERARQUIA h _
  · exact foldl_passo_todoTrivial sel HIERARQUIA_2 h _

/-- Witness for C2 at a concrete selection: `uf` supplied as `'TODOS'` and
`municipio` empty leave no non-trivial entry, so the resolver yields
`('NACIONAL', {})`; with `uf` and a more specific `municipio` both
supplied, the municipality level wins. -/
theorem claim_C2_nivel_mais_especifico_witness :
    mapear_selecao_geral [("uf", "TODOS"), ("municipio", "")] = ("NACIONAL", []) ∧
    (mapear_selecao_geral [("uf", "Bahia"), ("municipio", "Salvador")]).1 =
      "MUNICIPIO" := by
  constructor
  · exact (claim_C2_nivel_mais_especifico
      [("uf", "TODOS"), ("municipio", "")]).1.2 (by decide)
  · rw [(claim_C2_nivel_mais_especifico
      [("uf", "Bahia"), ("municipio", "Salvador")]).1.1]
    decide

/-- Claim C9: the count formatter renders 1234567 as `"1.234.567"` and the
monetary formatter renders 1234.5 as `"1.234,50"`. -/
theorem claim_C9_formatadores :
    formatar_populacao (.int 1234567) = "1.234.567" ∧
    formatar_valor_monetario (1234.5 : ℚ) = "1.234,50" := by
  constructor
  · decide
  · have h : (1234.5 : ℚ) = Rat.mk' 2469 2 (by decide) (by decide) := by
      rw [Rat.mk'_eq_divInt, Rat.divInt_eq_div]; norm_num
    rw [h]; decide

/-- Claim C10: for every raw selection, the filter set returned by
`mapear_selecao_geral` (in both files) is empty exactly when the returned
level is `'NACIONAL'`. -/
theorem claim_C10_filtros_vazios_sse_nacional (sel : Selecao) :
    ((mapear_selecao_geral sel).2 = [] ↔
      (mapear_selecao_geral sel).1 = "NACIONAL") ∧
    ((mapear_selecao_geral_2 sel).2 = [] ↔
      (mapear_selecao_geral_2 sel).1 = "NACIONAL") :=
  ⟨foldl_passo_filtros sel HIERARQUIA (by decide) _ (by simp),
   foldl_passo_filtros sel HIERARQUIA_2 (by decide) _ (by simp)⟩

/-! ### Lemmas about the normalizer (claim C5) -/

theorem getLast?_mem' {l : List Char} {c : Char} (h : l.getLast? = some c) :
    c ∈ l := by
  obtain ⟨hne, rfl⟩ :=
    List.mem_getLast?_eq_getLast (show c ∈ l.getLast? from h)
  exact List.getLast_mem hne

theorem bons_fixos (c : Char) (h : c ∈ CHARS_BONS) :
    pyUpperChar c = c ∧ tiraAcento c = c ∧ mantemAlfaNum c = c ∧
      isPySpace c = false := by
  fin_cases h <;> decide

theorem espaco_fixo (c : Char) (h : isPySpace c = true) :
    pyUpperChar c = c ∧ tiraAcento c = c ∧ mantemAlfaNum c = c := by
  have hc : c ∈ pySpaceChars := of_decide_eq_true h
  fin_cases hc <;> decide

theorem mantemAlfaNum_classe (c : Char) :
    ehBomChar (mantemAlfaNum c) = true ∨ isPySpace (mantemAlfaNum c) = true := by
  unfold mantemAlfaNum
  by_cases hb : (ehBomChar c || isPySpace c) = true
  · rw [if_pos hb]
    rcases Bool.or_eq_true_iff.mp hb with h | h
    · exact Or.inl h
    · exact Or.inr h
  · rw [if_neg hb]
    exact Or.inr (by decide)

theorem tiraCodigo_id {l : List Char} (h : temCodigoInicial l = false) :
    tiraCodigo l = l := by
  unfold temCodigoInicial at h
  unfold tiraCodigo
  cases hc : codigoNumericoInicial l with
  | none => rfl
  | some r => rw [hc] at h; simp at h

theorem dropWhile_id {l : List Char}
    (h : ∀ c, l.head? = some c → isPySpace c = false) :
    l.dropWhile isPySpace = l := by
  cases l with
  | nil => rfl
  | cons a t =>
    have := h a rfl
    simp [List.dropWhile_cons, this]

theorem pyStrip_id {l : List Char}
    (h1 : ∀ c, l.head? = some c → isPySpace c = false)
    (h2 : ∀ c, l.getLast? = some c → isPySpace c = false) :
    pyStrip l = l := by
  unfold pyStrip
  rw [dropWhile_id h1,
    dropWhile_id (fun c hc => h2 c (by rwa [List.head?_reverse] at hc)),
    List.reverse_reverse]

theorem segmentos_cons (c : Char) (t : List Char) :
    segmentos (c :: t) =
      if isPySpace c then [] :: segmentos t
      else
        match segmentos t with
        | [] => [[c]]
        | w :: ws => (c :: w) :: ws := rfl

theorem segmentos_ne_nil (l : List Char) : segmentos l ≠ [] := by
  induction l with
  | nil => simp [segmentos]
  | cons c t ih =>
    rw [segmentos_cons]
    split
    · simp
    · cases hs : segmentos t <;> simp

theorem segmentos_mem {l w : List Char} (hw : w ∈ segmentos l) :
    ∀ c ∈ w, c ∈ l ∧ isPySpace c = false := by
  induction l generalizing w with
  | nil =>
    simp only [segmentos, List.foldr_nil, List.mem_singleton] at hw
    subst hw
    intro c hc
    simp at hc
  | cons a t ih =>
    rw [segmentos_cons] at hw
    by_cases ha : isPySpace a = true
    · rw [if_pos ha] at hw
      rcases List.mem_cons.mp hw with h1 | h2
      · subst h1; intro c hc; simp at hc
      · intro c hc
        obtain ⟨hm, hs⟩ := ih h2 c hc
        exact ⟨List.mem_cons_of_mem a hm, hs⟩
    · rw [if_neg ha] at hw
      cases hs : segmentos t with
      | nil => exact absurd hs (segmentos_ne_nil t)
      | cons w0 ws =>
        rw [hs] at hw
        have ha' : isPySpace a = false := Bool.eq_false_iff.mpr ha
        rcases List.mem_cons.mp hw with h1 | h2
        · subst h1
          intro c hc
          rcases List.mem_cons.mp hc with rfl | hcw
          · exact ⟨List.mem_cons_self _ _, ha'⟩
          · obtain ⟨hm, hsp⟩ :=
              ih (w := w0) (by rw [hs]; exact List.mem_cons_self w0 ws) c hcw
            exact ⟨List.mem_cons_of_mem a hm, hsp⟩
        · intro c hc
          obtain ⟨hm, hsp⟩ :=
            ih (w := w) (by rw [hs]; exact List.mem_cons_of_mem w0 h2) c hc
          exact ⟨List.mem_cons_of_mem a hm, hsp⟩

theorem palavras_mem {l w : List Char} (hw : w ∈ palavras l) :
    w ≠ [] ∧ ∀ c ∈ w, c ∈ l ∧ isPySpace c = false := by
  unfold palavras at hw
  obtain ⟨hseg, hne⟩ := List.mem_filter.mp hw
  exact ⟨by simpa using hne, segmentos_mem hseg⟩

/-- The shape of the word lists the normalizer's collapse step produces:
nonempty words of `[A-Z0-9]` characters. -/
def PalavrasBoas (ws : List (List Char)) : Prop :=
  ∀ w ∈ ws, w ≠ [] ∧ ∀ c ∈ w, ehBomChar c = true

theorem palavras_boas_de_classe {l4 : List Char}
    (hl4 : ∀ c ∈ l4, ehBomChar c = true ∨ isPySpace c = true) :
    PalavrasBoas (palavras l4) := by
  intro w hw
  obtain ⟨hne, hmem⟩ := palavras_mem hw
  refine ⟨hne, fun c hc => ?_⟩
  obtain ⟨hcl, hcs⟩ := hmem c hc
  rcases hl4 c hcl with hb | hs
  · exact hb
  · rw [hs] at hcs; exact absurd hcs (by simp)

theorem juntaEspaco_eq (w : List Char) (ws : List (List Char)) (h : ws ≠ []) :
    juntaEspaco (w :: ws) = w ++ ' ' :: juntaEspaco ws := by
  cases ws with
  | nil => exact absurd rfl h
  | cons w2 ws2 => rfl

theorem juntaEspaco_mem {ws : List (List Char)} {c : Char}
    (hc : c ∈ juntaEspaco ws) : (∃ w ∈ ws, c ∈ w) ∨ c = ' ' := by
  induction ws with
  | nil => simp [juntaEspaco] at hc
  | cons w ws2 ih =>
    cases ws2 with
    | nil =>
      exact Or.inl ⟨w, List.mem_cons_self w [], by simpa [juntaEspaco] using hc⟩
    | cons w2 ws3 =>
      rw [juntaEspaco_eq _ _ (by simp)] at hc
      rcases List.mem_append.mp hc with h1 | h2
      · exact Or.inl ⟨w, List.mem_cons_self _ _, h1⟩
      · rcases List.mem_cons.mp h2 with rfl | h3
        · exact Or.inr rfl
        · rcases ih h3 with ⟨w', hw', hcw⟩ | hsp
          · exact Or.inl ⟨w', List.mem_cons_of_mem _ hw', hcw⟩
          · exact Or.inr hsp

theorem juntaEspaco_ne_nil {ws : List (List Char)} (hb : PalavrasBoas ws)
    (h : ws ≠ []) : juntaEspaco ws ≠ [] := by
  cases ws with
  | nil => exact absurd rfl h
  | cons w ws2 =>
    have hw := (hb w (List.mem_cons_self _ _)).1
    cases ws2 with
    | nil => simpa [juntaEspaco] using hw
    | cons w2 ws3 =>
      rw [juntaEspaco_eq _ _ (by simp)]
      cases w with
      | nil => exact absurd rfl hw
      | cons a t => simp

theorem juntaEspaco_head {ws : List (List Char)} (hb : PalavrasBoas ws) :
    ∀ c, (juntaEspaco ws).head? = some c → isPySpace c = false := by
  intro c hc
  cases ws with
  | nil => simp [juntaEspaco] at hc
  | cons w ws2 =>
    obtain ⟨hne, hgood⟩ := hb w (List.mem_cons_self _ _)
    cases w with
    | nil => exact absurd rfl hne
    | cons a t =>
      have hhead : (juntaEspaco ((a :: t) :: ws2)).head? = some a := by
        cases ws2 with
        | nil => rfl
        | cons _ _ => rw [juntaEspaco_eq _ _ (by simp)]; rfl
      rw [hhead] at hc
      obtain rfl := Option.some.inj hc
      exact (bons_fixos _ (of_decide_eq_true
        (hgood _ (List.mem_cons_self _ _)))).2.2.2

theorem juntaEspaco_getLast {ws : List (List Char)} (hb : PalavrasBoas ws) :
    ∀ c, (juntaEspaco ws).getLast? = some c → isPySpace c = false := by
  induction ws with
  | nil => intro c hc; simp [juntaEspaco] at hc
  | cons w ws2 ih =>
    intro c hc
    cases ws2 with
    | nil =>
      have hcm : c ∈ w := getLast?_mem' (by simpa [juntaEspaco] using hc)
      exact (bons_fixos c (of_decide_eq_true
        ((hb w (List.mem_cons_self _ _)).2 c hcm))).2.2.2
    | cons w2 ws3 =>
      rw [juntaEspaco_eq _ _ (by simp)] at hc
      have hb2 : PalavrasBoas (w2 :: ws3) :=
        fun x hx => hb x (List.mem_cons_of_mem _ hx)
      have hnn : juntaEspaco (w2 :: ws3) ≠ [] :=
        juntaEspaco_ne_nil hb2 (by simp)
      rw [List.getLast?_append_of_ne_nil _ (by simp)] at hc
      rw [show (' ' :: juntaEspaco (w2 :: ws3)) =
        [' '] ++ juntaEspaco (w2 :: ws3) from rfl,
        List.getLast?_append_of_ne_nil _ hnn] at hc
      exact ih hb2 c hc

theorem segmentos_append_nonspace {w : List Char}
    (hw : ∀ c ∈ w, isPySpace c = false) :
    ∀ (rest h : List Char) (tl : List (List Char)),
      segmentos rest = h :: tl → segmentos (w ++ rest) = (w ++ h) :: tl := by
  induction w with
  | nil => intro rest h tl hr; simpa using hr
  | cons a w' ih =>
    intro rest h tl hr
    rw [List.cons_append, segmentos_cons,
      if_neg (by simp [hw a (List.mem_cons_self _ _)]),
      ih (fun c hc => hw c (List.mem_cons_of_mem _ hc)) rest h tl hr]
    simp

theorem palavras_juntaEspaco {ws : List (List Char)} (hb : PalavrasBoas ws) :
    palavras (juntaEspaco ws) = ws := by
  induction ws with
  | nil => rfl
  | cons w ws2 ih =>
    obtain ⟨hne, hgood⟩ := hb w (List.mem_cons_self _ _)
    have hwns : ∀ c ∈ w, isPySpace c = false := fun c hc =>
      (bons_fixos c (of_decide_eq_true (hgood c hc))).2.2.2
    have hb2 : PalavrasBoas ws2 := fun x hx => hb x (List.mem_cons_of_mem _ hx)
    cases ws2 with
    | nil =>
      have hws : segmentos w = [w] := by
        have := segmentos_append_nonspace hwns [] [] [] rfl
        simpa using this
      show palavras w = [w]
      unfold palavras
      rw [hws, List.filter_cons, if_pos (by simpa using hne)]
      rfl
    | cons w2 ws3 =>
      rw [juntaEspaco_eq _ _ (by simp)]
      have h1 : segmentos (' ' :: juntaEspaco (w2 :: ws3)) =
          [] :: segmentos (juntaEspaco (w2 :: ws3)) := by
        rw [segmentos_cons, if_pos (by decide)]
      cases hseg : segmentos (juntaEspaco (w2 :: ws3)) with
      | nil => exact absurd hseg (segmentos_ne_nil _)
      | cons sh stl =>
        have h2 : segmentos (' ' :: juntaEspaco (w2 :: ws3)) =
            [] :: sh :: stl := by rw [h1, hseg]
        have h3 : segmentos (w ++ ' ' :: juntaEspaco (w2 :: ws3)) =
            (w ++ []) :: sh :: stl :=
          segmentos_append_nonspace hwns _ [] (sh :: stl) h2
        unfold palavras
        rw [h3, List.append_nil, List.filter_cons,
          if_pos (by simpa using hne)]
        have h4 : List.filter (fun x => !x.isEmpty) (sh :: stl) =
            w2 :: ws3 := by
          rw [← hseg]
          exact ih hb2
        rw [h4]

theorem map_fixo {f : Char → Char} {l : List Char} (h : ∀ c ∈ l, f c = c) :
    l.map f = l := by
  rw [List.map_congr_left (g := id) h, List.map_id]

theorem juntaEspaco_classe {ws : List (List Char)} (hb : PalavrasBoas ws) :
    ∀ c ∈ juntaEspaco ws, ehBomChar c = true ∨ isPySpace c = true := by
  intro c hc
  rcases juntaEspaco_mem hc with ⟨w, hw, hcw⟩ | rfl
  · exact Or.inl ((hb w hw).2 c hcw)
  · exact Or.inr (by decide)

theorem padronizar_fixo_juntaEspaco {ws : List (List Char)}
    (hb : PalavrasBoas ws)
    (h : temCodigoInicial (juntaEspaco ws) = false) :
    padronizar_nome_geografico (String.mk (juntaEspaco ws)) =
      String.mk (juntaEspaco ws) := by
  have hclasse := juntaEspaco_classe hb
  have hfixU : (juntaEspaco ws).map pyUpperChar = juntaEspaco ws :=
    map_fixo (fun c hc => by
      rcases hclasse c hc with hbm | hsp
      · exact (bons_fixos c (of_decide_eq_true hbm)).1
      · exact (espaco_fixo c hsp).1)
  have hfixA : (juntaEspaco ws).map tiraAcento = juntaEspaco ws :=
    map_fixo (fun c hc => by
      rcases hclasse c hc with hbm | hsp
      · exact (bons_fixos c (of_decide_eq_true hbm)).2.1
      · exact (espaco_fixo c hsp).2.1)
  have hfixM : (juntaEspaco ws).map mantemAlfaNum = juntaEspaco ws :=
    map_fixo (fun c hc => by
      rcases hclasse c hc with hbm | hsp
      · exact (bons_fixos c (of_decide_eq_true hbm)).2.2.1
      · exact (espaco_fixo c hsp).2.2)
  have hstrip : pyStrip (juntaEspaco ws) = juntaEspaco ws :=
    pyStrip_id (juntaEspaco_head hb) (juntaEspaco_getLast hb)
  show String.mk (pyStrip (juntaEspaco (palavras (List.map mantemAlfaNum
    (tiraCodigo (List.map tiraAcento (pyStrip (List.map pyUpperChar
      (juntaEspaco ws))))))))) = String.mk (juntaEspaco ws)
  rw [hfixU, hstrip, hfixA, tiraCodigo_id h, hfixM,
    palavras_juntaEspaco hb, hstrip]

/-- Claim C5 (amended): the normalizer is idempotent on every input whose
normalized form does not itself begin with a 3–4 digit code and a
separator; full idempotence fails (see the counterexample). -/
theorem claim_C5_idempotencia_condicional (s : String)
    (h : temCodigoInicial (padronizar_nome_geografico s).data = false) :
    padronizar_nome_geografico (padronizar_nome_geografico s) =
      padronizar_nome_geografico s := by
  have hb : PalavrasBoas (palavras (List.map mantemAlfaNum
      (tiraCodigo (List.map tiraAcento (pyStrip
        (List.map pyUpperChar s.data)))))) := by
    apply palavras_boas_de_classe
    intro c hc
    obtain ⟨x, _, rfl⟩ := List.mem_map.mp hc
    exact mantemAlfaNum_classe x
  have hdata : (padronizar_nome_geografico s).data =
      juntaEspaco (palavras (List.map mantemAlfaNum
        (tiraCodigo (List.map tiraAcento (pyStrip
          (List.map pyUpperChar s.data)))))) := by
    show pyStrip (juntaEspaco (palavras _)) = juntaEspaco (palavras _)
    exact pyStrip_id (juntaEspaco_head hb) (juntaEspaco_getLast hb)
  have hrepr : padronizar_nome_geografico s =
      String.mk (juntaEspaco (palavras (List.map mantemAlfaNum
        (tiraCodigo (List.map tiraAcento (pyStrip
          (List.map pyUpperChar s.data))))))) := by
    apply String.ext
    rw [hdata]
  rw [hrepr] at h ⊢
  exact padronizar_fixo_juntaEspaco hb h

/-- Claim C5, counterexample: `'123-456-ABC'` normalizes to `'456 ABC'`
(the regex strips one leading code and turns the second dash into a
space), and a second application strips the now-leading `'456 '` as
another code, giving `'ABC'` — the normalizer is not idempotent. -/
theorem claim_C5_contraexemplo :
    padronizar_nome_geografico "123-456-ABC" = "456 ABC" ∧
    padronizar_nome_geografico (padronizar_nome_geografico "123-456-ABC") =
      "ABC" ∧
    padronizar_nome_geografico (padronizar_nome_geografico "123-456-ABC") ≠
      padronizar_nome_geografico "123-456-ABC" := by
  refine ⟨by decide, by decide, by decide⟩

/-- Witness for the amended C5 at a concrete input. -/
theorem claim_C5_idempotencia_condicional_witness :
    temCodigoInicial (padronizar_nome_geografico "São Paulo").data = false ∧
    padronizar_nome_geografico (padronizar_nome_geografico "São Paulo") =
      padronizar_nome_geografico "São Paulo" :=
  ⟨by decide, claim_C5_idempotencia_condicional "São Paulo" (by decide)⟩

/-! ### Lemmas about the generators' output shape (claim C1) -/

theorem habTabelaTipo_shape {d : BaseHab} {rows : List RowHab} {nivel : String}
    {filtros : List (String × String)} {dfF : List RowHab} {tipo : String}
    {tb : List (List String)}
    (h : habTabelaTipo d rows nivel filtros dfF tipo = Except.ok tb) :
    ∃ corpo, tb = ["NIVEL", "DESCRIÇÃO", "QUANT"] ::
      ["NACIONAL", "BRASIL",
        fmtN ((rows.filter (fun r =>
          decide (r.habilitacao = tipo))).length)] :: corpo := by
  simp only [habTabelaTipo] at h
  cases hc : habCorpo d rows nivel filtros
      (List.filter (fun r => decide (r.habilitacao = tipo)) rows)
      (List.filter (fun r => decide (r.habilitacao = tipo)) dfF) with
  | error e => rw [hc] at h; simp at h
  | ok corpo => rw [hc] at h; exact ⟨corpo, (Except.ok.inj h).symm⟩

theorem habFold_mem {d : BaseHab} {rows : List RowHab} {nivel : String}
    {filtros : List (String × String)} {dfF : List RowHab} :
    ∀ (tipos : List String) (acc res : List TabelaHab),
      List.foldlM (habPasso d rows nivel filtros dfF) acc tipos =
        Except.ok res →
      ∀ t ∈ res, t ∈ acc ∨ ∃ tipo tb,
        habTabelaTipo d rows nivel filtros dfF tipo = Except.ok tb ∧
        t = ⟨tipo, tb⟩ := by
  intro tipos
  induction tipos with
  | nil =>
    intro acc res h t ht
    rw [List.foldlM_nil] at h
    obtain rfl := Except.ok.inj h
    exact Or.inl ht
  | cons tipo resto ih =>
    intro acc res h tt htt
    rw [List.foldlM_cons] at h
    cases hp : habPasso d rows nivel filtros dfF acc tipo with
    | error e => rw [hp] at h; exact absurd h (by simp [Bind.bind, Except.bind])
    | ok acc' =>
      rw [hp] at h
      have h' : List.foldlM (habPasso d rows nivel filtros dfF) acc' resto =
          Except.ok res := by
        simpa [Bind.bind, Except.bind] using h
      rcases ih acc' res h' tt htt with hin | hex
      · unfold habPasso at hp
        split at hp
        · obtain rfl := Except.ok.inj hp
          exact Or.inl hin
        · cases htb : habTabelaTipo d rows nivel filtros dfF tipo with
          | error e => rw [htb] at hp; exact absurd hp (by simp)
          | ok tb =>
            rw [htb] at hp
            obtain rfl := Except.ok.inj hp
            by_cases hlen : 2 < tb.length
            · rw [if_pos hlen] at hin
              rcases List.mem_append.mp hin with h1 | h2
              · exact Or.inl h1
              · exact Or.inr ⟨tipo, tb, htb, by simpa using h2⟩
            · rw [if_neg hlen] at hin
              exact Or.inl hin
      · exact Or.inr hex

theorem srv_filterMap_shape {df dft : List RowSrvL} {nv : String}
    {t : TabelaHab}
    (ht : t ∈ List.filterMap (fun servico =>
      if (dedupPrimeiro (fun r => r.cnes)
          (List.filter (fun r => decide (r.servico = servico)) dft)).isEmpty
          = true then none
      else if 2 < (srvTabela df nv servico (dedupPrimeiro (fun r => r.cnes)
          (List.filter (fun r => decide (r.servico = servico)) dft))).length
        then some ⟨servico, srvTabela df nv servico
          (dedupPrimeiro (fun r => r.cnes)
            (List.filter (fun r => decide (r.servico = servico)) dft))⟩
      else none)
      (sortedUnique (List.map (fun r => r.servico) dft))) :
    t.dados.get? 1 = some ["NACIONAL", "BRASIL",
      fmtN (srvQuantNacional df t.tipo_habilitacao)] := by
  obtain ⟨servico, hs, heq⟩ := List.mem_filterMap.mp ht
  split at heq
  · simp at heq
  · split at heq
    · obtain rfl := Option.some.inj heq
      rfl
    · simp at heq

theorem oci_filterMap_shape {df dft : List RowOci} {nv : String}
    {ftr : List (String × String)} {t : TabelaOci}
    (ht : t ∈ List.filterMap (fun sub =>
      if 2 < (ociTabela df dft nv ftr sub).length then
        some ⟨sub, ociTabela df dft nv ftr sub⟩
      else none)
      (sortedUnique (List.map (fun r => r.subgrupo) dft))) :
    t.dados.get? 1 = some ["NACIONAL", "BRASIL",
      fmtQ (somaQuant (df.filter (fun r =>
        decide (r.subgrupo = t.subgrupo_procedimento)))),
      formatar_valor_monetario (somaValor (df.filter (fun r =>
        decide (r.subgrupo = t.subgrupo_procedimento))))] := by
  obtain ⟨sub, hs, heq⟩ := List.mem_filterMap.mp ht
  split at heq
  · obtain rfl := Option.some.inj heq
    rfl
  · simp at heq

/-- Claim C1: in all three table generators, the `NACIONAL` row (index 1 of
each emitted table) is the metric over the entire loaded dataset restricted
only to the table's grouping value, ignoring the geographic filter; hence
for any two selections that both emit a table for the same grouping value,
the national rows agree. -/
theorem claim_C1_linha_nacional :
    (∀ (d : BaseHab) (sel : Selecao) (t : TabelaHab),
       t ∈ gerar_tabela_cnes_hab (some d) sel →
       t.dados.get? 1 = some ["NACIONAL", "BRASIL",
         fmtN (((habPadronizada d).filter (fun r =>
           decide (r.habilitacao = t.tipo_habilitacao))).length)]) ∧
    (∀ (raw : List RowSrv) (sel : Selecao) (t : TabelaHab),
       t ∈ gerar_tabela_cnes_srv (some raw) sel →
       t.dados.get? 1 = some ["NACIONAL", "BRASIL",
         fmtN (srvQuantNacional (raw.map srvCarregaLinha)
           t.tipo_habilitacao)]) ∧
    (∀ (raw : List RowOciRaw) (sel : Selecao) (t : TabelaOci),
       t ∈ gerar_tabela_sia_oci (some raw) sel →
       t.dados.get? 1 = some ["NACIONAL", "BRASIL",
         fmtQ (somaQuant (((raw.filter (fun r =>
           decide (r.tpRegistro = "PRINCIPAL"))).map ociCarregaLinha).filter
             (fun r => decide (r.subgrupo = t.subgrupo_procedimento)))),
         formatar_valor_monetario (somaValor (((raw.filter (fun r =>
           decide (r.tpRegistro = "PRINCIPAL"))).map ociCarregaLinha).filter
             (fun r => decide (r.subgrupo = t.subgrupo_procedimento))))]) ∧
    (∀ (d : BaseHab) (sel₁ sel₂ : Selecao) (t₁ t₂ : TabelaHab),
       t₁ ∈ gerar_tabela_cnes_hab (some d) sel₁ →
       t₂ ∈ gerar_tabela_cnes_hab (some d) sel₂ →
       t₁.tipo_habilitacao = t₂.tipo_habilitacao →
       t₁.dados.get? 1 = t₂.dados.get? 1) ∧
    (∀ (raw : List RowSrv) (sel₁ sel₂ : Selecao) (t₁ t₂ : TabelaHab),
       t₁ ∈ gerar_tabela_cnes_srv (some raw) sel₁ →
       t₂ ∈ gerar_tabela_cnes_srv (some raw) sel₂ →
       t₁.tipo_habilitacao = t₂.tipo_habilitacao →
       t₁.dados.get? 1 = t₂.dados.get? 1) ∧
    (∀ (raw : List RowOciRaw) (sel₁ sel₂ : Selecao) (t₁ t₂ : TabelaOci),
       t₁ ∈ gerar_tabela_sia_oci (some raw) sel₁ →
       t₂ ∈ gerar_tabela_sia_oci (some raw) sel₂ →
       t₁.subgrupo_procedimento = t₂.subgrupo_procedimento →
       t₁.dados.get? 1 = t₂.dados.get? 1) := by
  have hhab : ∀ (d : BaseHab) (sel : Selecao) (t : TabelaHab),
      t ∈ gerar_tabela_cnes_hab (some d) sel →
      t.dados.get? 1 = some ["NACIONAL", "BRASIL",
        fmtN (((habPadronizada d).filter (fun r =>
          decide (r.habilitacao = t.tipo_habilitacao))).length)] := by
    intro d sel t ht
    unfold gerar_tabela_cnes_hab at ht
    cases hn : gerar_tabela_cnes_hab_nucleo (some d) sel with
    | error e => rw [hn] at ht; simp at ht
    | ok res =>
      rw [hn] at ht
      simp only [gerar_tabela_cnes_hab_nucleo] at hn
      split at hn
      · obtain rfl := Except.ok.inj hn; simp at ht
      · split at hn
        · obtain rfl := Except.ok.inj hn; simp at ht
        · rcases habFold_mem _ _ _ hn t ht with habs | ⟨tipo, tb, htb, rfl⟩
          · simp at habs
          · obtain ⟨corpo, rfl⟩ := habTabelaTipo_shape htb
            rfl
  have hsrv : ∀ (raw : List RowSrv) (sel : Selecao) (t : TabelaHab),
      t ∈ gerar_tabela_cnes_srv (some raw) sel →
      t.dados.get? 1 = some ["NACIONAL", "BRASIL",
        fmtN (srvQuantNacional (raw.map srvCarregaLinha)
          t.tipo_habilitacao)] := by
    intro raw sel t ht
    simp only [gerar_tabela_cnes_srv, _carregar_base_cnes_srv,
      Option.map_some'] at ht
    by_cases hdf : (List.map srvCarregaLinha raw).isEmpty = true
    · rw [if_pos hdf] at ht; simp at ht
    · rw [if_neg hdf] at ht
      by_cases hdft : (srvTrabalho (mapear_selecao_geral_2 sel).2
          (List.map srvCarregaLinha raw)).isEmpty = true
      · rw [if_pos hdft] at ht; simp at ht
      · rw [if_neg hdft] at ht
        exact srv_filterMap_shape ht
  have hoci : ∀ (raw : List RowOciRaw) (sel : Selecao) (t : TabelaOci),
      t ∈ gerar_tabela_sia_oci (some raw) sel →
      t.dados.get? 1 = some ["NACIONAL", "BRASIL",
        fmtQ (somaQuant (((raw.filter (fun r =>
          decide (r.tpRegistro = "PRINCIPAL"))).map ociCarregaLinha).filter
            (fun r => decide (r.subgrupo = t.subgrupo_procedimento)))),
        formatar_valor_monetario (somaValor (((raw.filter (fun r =>
          decide (r.tpRegistro = "PRINCIPAL"))).map ociCarregaLinha).filter
            (fun r => decide (r.subgrupo = t.subgrupo_procedimento))))] := by
    intro raw sel t ht
    simp only [gerar_tabela_sia_oci, _carregar_base_sia_oci,
      Option.map_some'] at ht
    by_cases hdf : (List.map ociCarregaLinha (List.filter (fun r =>
        decide (r.tpRegistro = "PRINCIPAL")) raw)).isEmpty = true
    · rw [if_pos hdf] at ht; simp at ht
    · rw [if_neg hdf] at ht
      by_cases hdft : (ociTrabalho (mapear_selecao_geral_2 sel).2
          (List.map ociCarregaLinha (List.filter (fun r =>
            decide (r.tpRegistro = "PRINCIPAL")) raw))).isEmpty = true
      · rw [if_pos hdft] at ht; simp at ht
      · rw [if_neg hdft] at ht
        exact oci_filterMap_shape ht
  refine ⟨hhab, hsrv, hoci, ?_, ?_, ?_⟩
  · intro d sel₁ sel₂ t₁ t₂ h₁ h₂ he
    rw [hhab d sel₁ t₁ h₁, hhab d sel₂ t₂ h₂, he]
  · intro raw sel₁ sel₂ t₁ t₂ h₁ h₂ he
    rw [hsrv raw sel₁ t₁ h₁, hsrv raw sel₂ t₂ h₂, he]
  · intro raw sel₁ sel₂ t₁ t₂ h₁ h₂ he
    rw [hoci raw sel₁ t₁ h₁, hoci raw sel₂ t₂ h₂, he]

/-- A one-row qualifications base used by concrete witnesses. -/
def exBaseHab : BaseHab :=
  { rows := [{ habilitacao := "H", uf := "SAO PAULO", macroSaude := "M",
               regiaoSaude := "R", municipio := "C", tipoUnidade := "T",
               cnes := "1", fantasia := "F" }],
    temHab := true, temUF := true, temMacro := true, temRS := true,
    temMunicipio := true, temTipoUnidade := true, temCnes := true,
    temFantasia := true }

/-- A one-row services dataset used by concrete witnesses. -/
def exRowSrv : RowSrv :=
  { servico := "S", uf := "SAO PAULO", macroSaude := "M",
    regiaoSaude := "R", municipio := "C", tipoUnidade := "T", cnes := "1",
    fantasia := "F" }

/-- A one-row OCI dataset used by concrete witnesses. -/
def exRowOci : RowOciRaw :=
  { uf := "SAO PAULO", macroSaude := "M",
    regiaoSaude := "R", municipio := "C", cnes := "1", fantasia := "F",
    tpRegistro := "PRINCIPAL", subgrupo := "G", quantAprov := intQ 2,
    valorAprov := intQ 3 }

/-- The tables the generators emit for the one-row datasets above. -/
def exTabelaHabNacional : TabelaHab :=
  ⟨"H", [["NIVEL", "DESCRIÇÃO", "QUANT"], ["NACIONAL", "BRASIL", "1"],
    ["REGIÃO", "Sudeste", "1"], [" - UF", "Sao Paulo", "1"]]⟩

def exTabelaHabUF : TabelaHab :=
  ⟨"H", [["NIVEL", "DESCRIÇÃO", "QUANT"], ["NACIONAL", "BRASIL", "1"],
    ["UF", "Sao Paulo", "1"], ["MACRORREGIÃO", "M", "1"],
    [" - REGIÃO DE SAUDE", "R", "1"]]⟩

def exTabelaSrv : TabelaHab :=
  ⟨"S", [["NIVEL", "DESCRIÇÃO", "QUANT"], ["NACIONAL", "BRASIL", "1"],
    ["REGIÃO", "Sudeste", "1"], [" - UF", "Sao Paulo", "1"]]⟩

def exTabelaOci : TabelaOci :=
  ⟨"G", [["NIVEL", "DESCRIÇÃO", "QUANTIDADE APROVADA",
      "VALOR APROVADO (R$)"],
    ["NACIONAL", "BRASIL", "2", "3,00"], ["REGIÃO", "Sudeste", "2", "3,00"],
    [" - UF", "Sao Paulo", "2", "3,00"]]⟩

/-- Witness for C1 at concrete one-row datasets: the national row of each
emitted table is the unfiltered metric, and the national row of the
qualification table is unchanged between the empty selection and a state
selection. -/
theorem claim_C1_linha_nacional_witness :
    (exTabelaHabNacional.dados.get? 1 = some ["NACIONAL", "BRASIL",
      fmtN (((habPadronizada exBaseHab).filter (fun r =>
        decide (r.habilitacao = exTabelaHabNacional.tipo_habilitacao))).length)]) ∧
    (exTabelaSrv.dados.get? 1 = some ["NACIONAL", "BRASIL",
      fmtN (srvQuantNacional ([exRowSrv].map srvCarregaLinha)
        exTabelaSrv.tipo_habilitacao)]) ∧
    (exTabelaOci.dados.get? 1 = some ["NACIONAL", "BRASIL",
      fmtQ (somaQuant ((([exRowOci].filter (fun r =>
        decide (r.tpRegistro = "PRINCIPAL"))).map ociCarregaLinha).filter
          (fun r => decide (r.subgrupo = exTabelaOci.subgrupo_procedimento)))),
      formatar_valor_monetario (somaValor ((([exRowOci].filter (fun r =>
        decide (r.tpRegistro = "PRINCIPAL"))).map ociCarregaLinha).filter
          (fun r => decide (r.subgrupo = exTabelaOci.subgrupo_procedimento))))]) ∧
    (exTabelaHabNacional.dados.get? 1 = exTabelaHabUF.dados.get? 1) :=
  ⟨claim_C1_linha_nacional.1 exBaseHab [] exTabelaHabNacional (by decide),
   claim_C1_linha_nacional.2.1 [exRowSrv] [] exTabelaSrv (by decide),
   claim_C1_linha_nacional.2.2.1 [exRowOci] [] exTabelaOci (by decide),
   claim_C1_linha_nacional.2.2.2.1 exBaseHab [] [("uf", "São Paulo")]
     exTabelaHabNacional exTabelaHabUF (by decide) (by decide) rfl⟩

/-! ### C7: missing file, unresolved columns or empty filter result -/

/-- C7. Each of the three table generators degrades to the empty list —
never an exception to its caller — when the backing parquet file is
absent (`None` input), when a required semantic column (qualification or
state, for the qualifications engine) cannot be resolved, or when the
applied filters leave an empty working frame.  Totality to the caller
holds by construction: `gerar_tabela_cnes_hab` wraps its body's
`Except` in the catch-all, and the other two generators are plain
functions. -/
theorem claim_C7_resultado_vazio_sem_excecao :
    (∀ sel, gerar_tabela_cnes_hab none sel = []) ∧
    (∀ d sel, (d.temHab && d.temUF) = false →
      gerar_tabela_cnes_hab (some d) sel = []) ∧
    (∀ d sel,
      habFiltrada d (mapear_selecao_geral sel).1 (mapear_selecao_geral sel).2
        = [] →
      gerar_tabela_cnes_hab (some d) sel = []) ∧
    (∀ sel, gerar_tabela_cnes_srv none sel = []) ∧
    (∀ raw sel,
      srvTrabalho (mapear_selecao_geral_2 sel).2 (raw.map srvCarregaLinha)
        = [] →
      gerar_tabela_cnes_srv (some raw) sel = []) ∧
    (∀ sel, gerar_tabela_sia_oci none sel = []) ∧
    (∀ raw sel,
      ociTrabalho (mapear_selecao_geral_2 sel).2
        ((raw.filter (fun r => decide (r.tpRegistro = "PRINCIPAL"))).map
          ociCarregaLinha) = [] →
      gerar_tabela_sia_oci (some raw) sel = []) := by
  refine ⟨fun sel => rfl, fun d sel h => ?_, fun d sel h => ?_,
    fun sel => rfl, fun raw sel h => ?_, fun sel => rfl,
    fun raw sel h => ?_⟩
  · simp [gerar_tabela_cnes_hab, gerar_tabela_cnes_hab_nucleo, h]
  · simp [gerar_tabela_cnes_hab, gerar_tabela_cnes_hab_nucleo, h]
  · simp [gerar_tabela_cnes_srv, _carregar_base_cnes_srv, h]
  · simp [gerar_tabela_sia_oci, _carregar_base_sia_oci, h]

/-- The qualifications base with the state column unresolved. -/
def exBaseHabSemUF : BaseHab := { exBaseHab with temUF := false }

/-- Witness for C7: each empty-result condition at a concrete input. -/
theorem claim_C7_resultado_vazio_sem_excecao_witness :
    gerar_tabela_cnes_hab none [] = [] ∧
    gerar_tabela_cnes_hab (some exBaseHabSemUF) [] = [] ∧
    gerar_tabela_cnes_hab (some exBaseHab) [("uf", "Acre")] = [] ∧
    gerar_tabela_cnes_srv none [] = [] ∧
    gerar_tabela_cnes_srv (some [exRowSrv]) [("uf", "Acre")] = [] ∧
    gerar_tabela_sia_oci none [] = [] ∧
    gerar_tabela_sia_oci (some [exRowOci]) [("uf", "Acre")] = [] :=
  ⟨claim_C7_resultado_vazio_sem_excecao.1 [],
   claim_C7_resultado_vazio_sem_excecao.2.1 exBaseHabSemUF [] (by decide),
   claim_C7_resultado_vazio_sem_excecao.2.2.1 exBaseHab [("uf", "Acre")]
     (by decide),
   claim_C7_resultado_vazio_sem_excecao.2.2.2.1 [],
   claim_C7_resultado_vazio_sem_excecao.2.2.2.2.1 [exRowSrv]
     [("uf", "Acre")] (by decide),
   claim_C7_resultado_vazio_sem_excecao.2.2.2.2.2.1 [],
   claim_C7_resultado_vazio_sem_excecao.2.2.2.2.2.2 [exRowOci]
     [("uf", "Acre")] (by decide)⟩

/-! ### C4: containment filters in srv/oci, equality filters in hab -/

/-- A qualifications base whose macro-health-region name strictly extends
the filter value `"RRAS 5"`. -/
def exBaseHabC4 : BaseHab :=
  { rows := [{ habilitacao := "H", uf := "SAO PAULO",
               macroSaude := "RRAS 5 - LESTE", regiaoSaude := "R",
               municipio := "C", tipoUnidade := "T", cnes := "1",
               fantasia := "F" }],
    temHab := true, temUF := true, temMacro := true, temRS := true,
    temMunicipio := true, temTipoUnidade := true, temCnes := true,
    temFantasia := true }

/-- The corresponding services row. -/
def exRowSrvC4 : RowSrv :=
  { servico := "S", uf := "SAO PAULO", macroSaude := "RRAS 5 - LESTE",
    regiaoSaude := "R", municipio := "C", tipoUnidade := "T", cnes := "1",
    fantasia := "F" }

/-- C4, counterexample.  The filter value `"RRAS 5"` is a proper substring
of the stored macro-health-region name `"RRAS 5 LESTE"`: the services
engine keeps the row (containment match) and emits a table, but the
qualifications engine drops it and returns nothing, while it does emit a
table when the filter value equals the stored name exactly — so the
qualifications engine matches the macro-health-region filter by equality,
not containment. -/
theorem claim_C4_contraexemplo :
    padronizar_nome_geografico "RRAS 5 - LESTE" = "RRAS 5 LESTE" ∧
    containsSub "RRAS 5 LESTE" (padronizar_nome_geografico "RRAS 5") = true ∧
    gerar_tabela_cnes_srv (some [exRowSrvC4]) [("macro", "RRAS 5")] ≠ [] ∧
    gerar_tabela_cnes_hab (some exBaseHabC4) [("macro", "RRAS 5")] = [] ∧
    gerar_tabela_cnes_hab (some exBaseHabC4) [("macro", "RRAS 5 LESTE")]
      ≠ [] := by
  decide

/-- C4, amended.  The services and procedures engines share the row mask
`filtroLinha`: a macro-health-region or health-region entry is applied as
substring containment, any other resolved column as equality.  The
qualifications engine instead applies its selected-level filter as an
equality match for every level, including macro-health-region and
health-region. -/
theorem claim_C4_continencia_vs_igualdade :
    (∀ (obtem : String → String) (v : String),
      filtroLinha SRV_COLUNAS obtem [("NO_MACRO_REG_SAUDE", v)]
        = containsSub (obtem "NO_MACRO_REG_SAUDE") v) ∧
    (∀ (obtem : String → String) (v : String),
      filtroLinha OCI_COLUNAS obtem [("NO_REGIAO_SAUDE", v)]
        = containsSub (obtem "NO_REGIAO_SAUDE") v) ∧
    (∀ (obtem : String → String) (v : String),
      filtroLinha SRV_COLUNAS obtem [("NO_UF", v)]
        = decide (obtem "NO_UF" = v)) ∧
    (∀ (d : BaseHab) (v : String), d.temMacro = true →
      habFiltrada d "MACRORREGIAO" [("NO_MACRO_REG_SAUDE", v)]
        = (habPadronizada d).filter (fun r => decide (r.macroSaude = v))) ∧
    (∀ (d : BaseHab) (v : String), d.temRS = true →
      habFiltrada d "REGIAO_SAUDE" [("NO_REGIAO_SAUDE", v)]
        = (habPadronizada d).filter (fun r => decide (r.regiaoSaude = v))) := by
  refine ⟨fun obtem v => ?_, fun obtem v => ?_, fun obtem v => ?_,
    fun d v h => ?_, fun d v h => ?_⟩
  · simp [filtroLinha, SRV_COLUNAS]
  · simp [filtroLinha, OCI_COLUNAS]
  · simp [filtroLinha, SRV_COLUNAS]
  · have h1 : dictGet "MACRORREGIAO" FILTROS_APLICAVEIS
        = some "NO_MACRO_REG_SAUDE" := by decide
    have h2 : dictGet "NO_MACRO_REG_SAUDE"
        [(("NO_MACRO_REG_SAUDE" : String), v)] = some v := rfl
    have h3 : habColunaPresente d "NO_MACRO_REG_SAUDE" = d.temMacro := rfl
    simp only [habFiltrada, h1, h2, h3, h,
      if_neg (by decide : ¬("MACRORREGIAO" : String) = "REGIAO"), if_pos rfl]
    rfl
  · have h1 : dictGet "REGIAO_SAUDE" FILTROS_APLICAVEIS
        = some "NO_REGIAO_SAUDE" := by decide
    have h2 : dictGet "NO_REGIAO_SAUDE"
        [(("NO_REGIAO_SAUDE" : String), v)] = some v := rfl
    have h3 : habColunaPresente d "NO_REGIAO_SAUDE" = d.temRS := rfl
    simp only [habFiltrada, h1, h2, h3, h,
      if_neg (by decide : ¬("REGIAO_SAUDE" : String) = "REGIAO"), if_pos rfl]
    rfl

/-- Witness for the amended C4 at a concrete frame and filter values. -/
theorem claim_C4_continencia_vs_igualdade_witness :
    filtroLinha SRV_COLUNAS (srvObtem (srvCarregaLinha exRowSrvC4))
        [("NO_MACRO_REG_SAUDE", "RRAS 5")]
      = containsSub (srvObtem (srvCarregaLinha exRowSrvC4)
          "NO_MACRO_REG_SAUDE") "RRAS 5" ∧
    (exBaseHabC4.temMacro = true ∧
     habFiltrada exBaseHabC4 "MACRORREGIAO" [("NO_MACRO_REG_SAUDE", "RRAS 5")]
       = (habPadronizada exBaseHabC4).filter
           (fun r => decide (r.macroSaude = "RRAS 5"))) ∧
    (exBaseHabC4.temRS = true ∧
     habFiltrada exBaseHabC4 "REGIAO_SAUDE" [("NO_REGIAO_SAUDE", "R")]
       = (habPadronizada exBaseHabC4).filter
           (fun r => decide (r.regiaoSaude = "R"))) :=
  ⟨claim_C4_continencia_vs_igualdade.1 (srvObtem (srvCarregaLinha exRowSrvC4))
     "RRAS 5",
   ⟨by decide, claim_C4_continencia_vs_igualdade.2.2.2.1 exBaseHabC4 "RRAS 5"
     (by decide)⟩,
   ⟨by decide, claim_C4_continencia_vs_igualdade.2.2.2.2 exBaseHabC4 "R"
     (by decide)⟩⟩

/-! ### C6: the catch-all masks exceptions instead of propagating them -/

/-- The qualifications base with the macro-health-region column
unresolved. -/
def exBaseHabSemMacro : BaseHab := { exBaseHab with temMacro := false }

/-- C6, counterexample.  When a macro-health-region filter is applied
while that column could not be resolved, the body of
`gerar_tabela_cnes_hab` raises (`df[None]`, a `KeyError`), yet the
caller receives the masked empty list, not the exception; and the count
formatter coerces nothing at all — on an unparseable string it returns
the string itself rather than raising. -/
theorem claim_C6_contraexemplo :
    gerar_tabela_cnes_hab_nucleo (some exBaseHabSemMacro) [("macro", "M")]
      = .error "KeyError: None" ∧
    gerar_tabela_cnes_hab (some exBaseHabSemMacro) [("macro", "M")] = [] ∧
    formatar_populacao (.str "CORRUPTED") = "CORRUPTED" :=
  ⟨rfl, rfl, rfl⟩

/-- C6, amended.  Every exception of the body of
`gerar_tabela_cnes_hab` — including the data-corruption kind — is caught
by the final catch-all and masked as the empty list, never propagated to
the caller; and the per-row count formatter itself swallows coercion
failures, returning the uncoercible value as-is. -/
theorem claim_C6_excecoes_mascaradas :
    (∀ (dfOpt : Option BaseHab) (sel : Selecao) (e : String),
      gerar_tabela_cnes_hab_nucleo dfOpt sel = .error e →
      gerar_tabela_cnes_hab dfOpt sel = []) ∧
    (∀ s : String, pyParseInt s = Option.none →
      formatar_populacao (.str s) = s) := by
  refine ⟨fun dfOpt sel e h => ?_, fun s h => ?_⟩
  · simp [gerar_tabela_cnes_hab, h]
  · simp [formatar_populacao, pyValInt, h, pyValStr]

/-- Witness for the amended C6 at the concrete inputs of the
counterexample. -/
theorem claim_C6_excecoes_mascaradas_witness :
    gerar_tabela_cnes_hab (some exBaseHabSemMacro) [("macro", "M")] = [] ∧
    formatar_populacao (.str "CORRUPTED") = "CORRUPTED" :=
  ⟨claim_C6_excecoes_mascaradas.1 (some exBaseHabSemMacro) [("macro", "M")]
     "KeyError: None" rfl,
   claim_C6_excecoes_mascaradas.2 "CORRUPTED" (by decide)⟩

/-! ### C3: truncation depth below a state (`UF`) selection -/

/-- The level label of a table row (its first cell). -/
def nivelDe (row : List String) : String := row.headD ""

theorem nivelDe_cons (x : String) (xs : List String) : nivelDe (x :: xs) = x :=
  rfl

theorem srvBlocoRegiaoSaude_rotulos_uf (baseMac : List RowSrvL)
    (row : List String) (h : row ∈ srvBlocoRegiaoSaude "UF" baseMac) :
    nivelDe row = " - - - REGIÃO DE SAÚDE" := by
  simp only [srvBlocoRegiaoSaude, List.mem_flatMap] at h
  obtain ⟨rsv, _, hrow⟩ := h
  rw [if_pos (Or.inl trivial)] at hrow
  rcases List.mem_cons.mp hrow with hr | hr
  · subst hr; rfl
  · simp at hr

theorem srvBlocoMacroSaude_rotulos_uf (baseUf : List RowSrvL)
    (row : List String) (h : row ∈ srvBlocoMacroSaude "UF" baseUf) :
    nivelDe row = " - - MACRORREGIÃO" ∨
      nivelDe row = " - - - REGIÃO DE SAÚDE" := by
  simp only [srvBlocoMacroSaude, List.mem_flatMap] at h
  obtain ⟨mac, _, hrow⟩ := h
  rw [if_neg (by decide : ¬("UF" : String) = "REGIAO")] at hrow
  rcases List.mem_cons.mp hrow with hr | hr
  · subst hr; left; rfl
  · exact Or.inr (srvBlocoRegiaoSaude_rotulos_uf _ _ hr)

theorem srvBlocoUf_rotulos_uf (baseReg : List RowSrvL) (row : List String)
    (h : row ∈ srvBlocoUf "UF" baseReg) :
    nivelDe row = " - UF" ∨ nivelDe row = " - - MACRORREGIÃO" ∨
      nivelDe row = " - - - REGIÃO DE SAÚDE" := by
  simp only [srvBlocoUf, List.mem_flatMap] at h
  obtain ⟨ufv, _, hrow⟩ := h
  rw [if_neg (by decide : ¬("UF" : String) = "NACIONAL")] at hrow
  rcases List.mem_cons.mp hrow with hr | hr
  · subst hr; left; rfl
  · exact Or.inr (srvBlocoMacroSaude_rotulos_uf _ _ hr)

theorem srvBlocoRegioes_rotulos_uf (base : List RowSrvL) (row : List String)
    (h : row ∈ srvBlocoRegioes "UF" base) :
    nivelDe row = "REGIÃO" ∨ nivelDe row = " - UF" ∨
      nivelDe row = " - - MACRORREGIÃO" ∨
      nivelDe row = " - - - REGIÃO DE SAÚDE" := by
  simp only [srvBlocoRegioes, List.mem_flatMap] at h
  obtain ⟨reg, _, hrow⟩ := h
  rcases List.mem_cons.mp hrow with hr | hr
  · subst hr; left; rfl
  · exact Or.inr (srvBlocoUf_rotulos_uf _ _ hr)

theorem ociBlocoMacroSaude_rotulos_uf (baseUf : List RowOci)
    (row : List String) (h : row ∈ ociBlocoMacroSaude "UF" baseUf) :
    nivelDe row = " - - MACRORREGIÃO" := by
  simp only [ociBlocoMacroSaude, List.mem_flatMap] at h
  obtain ⟨mac, _, hrow⟩ := h
  rw [if_pos trivial] at hrow
  rcases List.mem_cons.mp hrow with hr | hr
  · subst hr; rfl
  · simp at hr

theorem ociBlocoUf_rotulos_uf (baseRegiao : List RowOci) (row : List String)
    (h : row ∈ ociBlocoUf "UF" baseRegiao) :
    nivelDe row = " - UF" ∨ nivelDe row = " - - MACRORREGIÃO" := by
  simp only [ociBlocoUf, List.mem_flatMap] at h
  obtain ⟨ufv, _, hrow⟩ := h
  rw [if_neg (by decide : ¬("UF" : String) = "REGIAO")] at hrow
  rcases List.mem_cons.mp hrow with hr | hr
  · subst hr; left; rfl
  · exact Or.inr (ociBlocoMacroSaude_rotulos_uf _ _ hr)

theorem ociDetalhe_rotulos_uf (df dft : List RowOci)
    (filtros : List (String × String)) (sub : String) (row : List String)
    (h : row ∈ ociDetalhe df dft "UF" filtros sub) :
    nivelDe row = "REGIÃO" ∨ nivelDe row = " - UF" ∨
      nivelDe row = " - - MACRORREGIÃO" := by
  simp only [ociDetalhe] at h
  rw [if_neg (by decide : ¬("UF" : String) = "NACIONAL")] at h
  cases hdg : dictGet "NO_REGIAO" filtros with
  | none =>
    simp only [hdg] at h
    rcases List.mem_append.mp h with h1 | h1
    · obtain ⟨reg, _, rfl⟩ := List.mem_map.mp h1
      left; rfl
    · split at h1
      · simp at h1
      · exact Or.inr (ociBlocoUf_rotulos_uf _ _ h1)
  | some regf =>
    simp only [hdg] at h
    rcases List.mem_append.mp h with h1 | h1
    · rw [List.mem_singleton] at h1
      subst h1; left; rfl
    · split at h1
      · simp at h1
      · exact Or.inr (ociBlocoUf_rotulos_uf _ _ h1)

theorem habLinhasUF_rotulos (d : BaseHab) (dfTotalHab dfTipo : List RowHab)
    (ufsel : String) (row : List String)
    (h : row ∈ habLinhasUF d dfTotalHab dfTipo ufsel) :
    nivelDe row = "UF" ∨ nivelDe row = "MACRORREGIÃO" ∨
      nivelDe row = " - REGIÃO DE SAUDE" := by
  simp only [habLinhasUF] at h
  rcases List.mem_cons.mp h with hr | hr
  · subst hr; left; rfl
  · split at hr
    · rw [List.mem_flatMap] at hr
      obtain ⟨mq, _, hrow⟩ := hr
      split at hrow
      · rcases List.mem_cons.mp hrow with h2 | h2
        · subst h2; right; left; rfl
        · split at h2
          · rw [List.mem_flatMap] at h2
            obtain ⟨rq, _, h3⟩ := h2
            split at h3
            · rw [List.mem_singleton] at h3
              subst h3; right; right; rfl
            · simp at h3
          · simp at h2
      · simp at hrow
    · simp at hr

theorem habCorpo_rotulos_uf (d : BaseHab) (rows : List RowHab)
    (filtros : List (String × String)) (dfTotalHab dfTipo : List RowHab)
    (corpo : List (List String)) (row : List String)
    (hc : habCorpo d rows "UF" filtros dfTotalHab dfTipo = Except.ok corpo)
    (hr : row ∈ corpo) :
    nivelDe row = "UF" ∨ nivelDe row = "MACRORREGIÃO" ∨
      nivelDe row = " - REGIÃO DE SAUDE" := by
  simp only [habCorpo] at hc
  rw [if_neg (by decide : ¬("UF" : String) = "NACIONAL")] at hc
  rw [if_neg (fun hh => absurd hh.1 (by decide))] at hc
  by_cases hs : (dictGet "NO_UF" filtros).isSome = true
  · rw [if_pos ⟨trivial, hs⟩] at hc
    obtain rfl := Except.ok.inj hc
    exact habLinhasUF_rotulos _ _ _ _ _ hr
  · rw [if_neg (fun hh => hs hh.2)] at hc
    rw [if_neg (fun hh => absurd hh.1 (by decide))] at hc
    rw [if_neg (fun hh => absurd hh.1 (by decide))] at hc
    rw [if_neg (fun hh => absurd hh.1 (by decide))] at hc
    rw [if_neg (fun hh => absurd hh.1 (by decide))] at hc
    obtain rfl := Except.ok.inj hc
    simp at hr

theorem habTabelaTipo_corpo {d : BaseHab} {rows : List RowHab} {nivel : String}
    {filtros : List (String × String)} {dfF : List RowHab} {tipo : String}
    {tb : List (List String)}
    (h : habTabelaTipo d rows nivel filtros dfF tipo = Except.ok tb) :
    ∃ corpo, habCorpo d rows nivel filtros
        (List.filter (fun r => decide (r.habilitacao = tipo)) rows)
        (List.filter (fun r => decide (r.habilitacao = tipo)) dfF)
        = Except.ok corpo ∧
      tb = ["NIVEL", "DESCRIÇÃO", "QUANT"] ::
        ["NACIONAL", "BRASIL",
          fmtN ((List.filter (fun r => decide (r.habilitacao = tipo))
            rows).length)] :: corpo := by
  simp only [habTabelaTipo] at h
  cases hc : habCorpo d rows nivel filtros
      (List.filter (fun r => decide (r.habilitacao = tipo)) rows)
      (List.filter (fun r => decide (r.habilitacao = tipo)) dfF) with
  | error e => rw [hc] at h; simp at h
  | ok corpo => rw [hc] at h; exact ⟨corpo, rfl, (Except.ok.inj h).symm⟩

theorem srv_filterMap_mem {df dft : List RowSrvL} {nv : String}
    {t : TabelaHab}
    (ht : t ∈ List.filterMap (fun servico =>
      if (dedupPrimeiro (fun r => r.cnes)
          (List.filter (fun r => decide (r.servico = servico)) dft)).isEmpty
          = true then none
      else if 2 < (srvTabela df nv servico (dedupPrimeiro (fun r => r.cnes)
          (List.filter (fun r => decide (r.servico = servico)) dft))).length
        then some ⟨servico, srvTabela df nv servico
          (dedupPrimeiro (fun r => r.cnes)
            (List.filter (fun r => decide (r.servico = servico)) dft))⟩
      else none)
      (sortedUnique (List.map (fun r => r.servico) dft))) :
    ∃ servico base, t = ⟨servico, srvTabela df nv servico base⟩ := by
  obtain ⟨servico, hs, heq⟩ := List.mem_filterMap.mp ht
  split at heq
  · simp at heq
  · split at heq
    · exact ⟨servico, _, (Option.some.inj heq).symm⟩
    · simp at heq

theorem oci_filterMap_mem {df dft : List RowOci} {nv : String}
    {ftr : List (String × String)} {t : TabelaOci}
    (ht : t ∈ List.filterMap (fun sub =>
      if 2 < (ociTabela df dft nv ftr sub).length then
        some ⟨sub, ociTabela df dft nv ftr sub⟩
      else none)
      (sortedUnique (List.map (fun r => r.subgrupo) dft))) :
    ∃ sub, t = ⟨sub, ociTabela df dft nv ftr sub⟩ := by
  obtain ⟨sub, hs, heq⟩ := List.mem_filterMap.mp ht
  split at heq
  · exact ⟨sub, (Option.some.inj heq).symm⟩
  · simp at heq

/-- The services table the one-row dataset yields at a state selection:
it reaches down to a health-region row. -/
def exTabelaSrvUF : TabelaHab :=
  ⟨"S", [["NIVEL", "DESCRIÇÃO", "QUANT"], ["NACIONAL", "BRASIL", "1"],
    ["REGIÃO", "Sudeste", "1"], [" - UF", "Sao Paulo", "1"],
    [" - - MACRORREGIÃO", "M", "1"], [" - - - REGIÃO DE SAÚDE", "R", "1"]]⟩

/-- The OCI table the one-row dataset yields at a state selection: it
stops at the macro-health-region row. -/
def exTabelaOciUF : TabelaOci :=
  ⟨"G", [["NIVEL", "DESCRIÇÃO", "QUANTIDADE APROVADA",
      "VALOR APROVADO (R$)"],
    ["NACIONAL", "BRASIL", "2", "3,00"], ["REGIÃO", "Sudeste", "2", "3,00"],
    [" - UF", "Sao Paulo", "2", "3,00"],
    [" - - MACRORREGIÃO", "M", "2", "3,00"]]⟩

/-- C3, counterexample.  At a selection resolving to the state level, both
the qualifications engine and the services engine emit health-region rows
(two levels below the selection), refuting the claim that the deepest row
is the macro-health-region. -/
theorem claim_C3_contraexemplo :
    (mapear_selecao_geral [("uf", "São Paulo")]).1 = "UF" ∧
    (mapear_selecao_geral_2 [("uf", "São Paulo")]).1 = "UF" ∧
    exTabelaHabUF ∈ gerar_tabela_cnes_hab (some exBaseHab)
      [("uf", "São Paulo")] ∧
    [" - REGIÃO DE SAUDE", "R", "1"] ∈ exTabelaHabUF.dados ∧
    exTabelaSrvUF ∈ gerar_tabela_cnes_srv (some [exRowSrv])
      [("uf", "São Paulo")] ∧
    [" - - - REGIÃO DE SAÚDE", "R", "1"] ∈ exTabelaSrvUF.dados := by
  decide

/-- C3, amended.  At a selection resolving to the state (`UF`) level, the
qualifications and services walks truncate below the health region — two
levels under the selection, with health-region rows emitted — while the
procedures (OCI) walk truncates below the macro-health-region, one level
under the selection; no engine emits municipality, facility-type or
facility rows. -/
theorem claim_C3_truncamento_uf :
    (∀ (d : BaseHab) (sel : Selecao) (t : TabelaHab) (row : List String),
      (mapear_selecao_geral sel).1 = "UF" →
      t ∈ gerar_tabela_cnes_hab (some d) sel → row ∈ t.dados →
      nivelDe row ∈ ["NIVEL", "NACIONAL", "UF", "MACRORREGIÃO",
        " - REGIÃO DE SAUDE"]) ∧
    (∀ (raw : List RowSrv) (sel : Selecao) (t : TabelaHab)
        (row : List String),
      (mapear_selecao_geral_2 sel).1 = "UF" →
      t ∈ gerar_tabela_cnes_srv (some raw) sel → row ∈ t.dados →
      nivelDe row ∈ ["NIVEL", "NACIONAL", "REGIÃO", " - UF",
        " - - MACRORREGIÃO", " - - - REGIÃO DE SAÚDE"]) ∧
    (∀ (raw : List RowOciRaw) (sel : Selecao) (t : TabelaOci)
        (row : List String),
      (mapear_selecao_geral_2 sel).1 = "UF" →
      t ∈ gerar_tabela_sia_oci (some raw) sel → row ∈ t.dados →
      nivelDe row ∈ ["NIVEL", "NACIONAL", "REGIÃO", " - UF",
        " - - MACRORREGIÃO"]) := by
  refine ⟨?_, ?_, ?_⟩
  · intro d sel t row hsel ht hr
    unfold gerar_tabela_cnes_hab at ht
    cases hn : gerar_tabela_cnes_hab_nucleo (some d) sel with
    | error e => rw [hn] at ht; simp at ht
    | ok res =>
      rw [hn] at ht
      simp only [gerar_tabela_cnes_hab_nucleo] at hn
      rw [hsel] at hn
      split at hn
      · obtain rfl := Except.ok.inj hn; simp at ht
      · split at hn
        · obtain rfl := Except.ok.inj hn; simp at ht
        · rcases habFold_mem _ _ _ hn t ht with habs | ⟨tipo, tb, htb, rfl⟩
          · simp at habs
          · obtain ⟨corpo, hcz, rfl⟩ := habTabelaTipo_corpo htb
            rcases List.mem_cons.mp hr with h1 | h1
            · subst h1; rw [nivelDe_cons]; decide
            · rcases List.mem_cons.mp h1 with h2 | h2
              · subst h2; rw [nivelDe_cons]; decide
              · rcases habCorpo_rotulos_uf _ _ _ _ _ _ _ hcz h2 with
                  h3 | h3 | h3 <;> (rw [h3]; decide)
  · intro raw sel t row hsel ht hr
    simp only [gerar_tabela_cnes_srv, _carregar_base_cnes_srv,
      Option.map_some'] at ht
    rw [hsel] at ht
    by_cases hdf : (List.map srvCarregaLinha raw).isEmpty = true
    · rw [if_pos hdf] at ht; simp at ht
    · rw [if_neg hdf] at ht
      by_cases hdft : (srvTrabalho (mapear_selecao_geral_2 sel).2
          (List.map srvCarregaLinha raw)).isEmpty = true
      · rw [if_pos hdft] at ht; simp at ht
      · rw [if_neg hdft] at ht
        obtain ⟨servico, base, rfl⟩ := srv_filterMap_mem ht
        simp only [srvTabela] at hr
        rcases List.mem_cons.mp hr with h1 | h1
        · subst h1; rw [nivelDe_cons]; decide
        · rcases List.mem_cons.mp h1 with h2 | h2
          · subst h2; rw [nivelDe_cons]; decide
          · rcases srvBlocoRegioes_rotulos_uf _ _ h2 with
              h3 | h3 | h3 | h3 <;> (rw [h3]; decide)
  · intro raw sel t row hsel ht hr
    simp only [gerar_tabela_sia_oci, _carregar_base_sia_oci,
      Option.map_some'] at ht
    rw [hsel] at ht
    by_cases hdf : (List.map ociCarregaLinha (List.filter (fun r =>
        decide (r.tpRegistro = "PRINCIPAL")) raw)).isEmpty = true
    · rw [if_pos hdf] at ht; simp at ht
    · rw [if_neg hdf] at ht
      by_cases hdft : (ociTrabalho (mapear_selecao_geral_2 sel).2
          (List.map ociCarregaLinha (List.filter (fun r =>
            decide (r.tpRegistro = "PRINCIPAL")) raw))).isEmpty = true
      · rw [if_pos hdft] at ht; simp at ht
      · rw [if_neg hdft] at ht
        obtain ⟨sub, rfl⟩ := oci_filterMap_mem ht
        simp only [ociTabela] at hr
        rcases List.mem_cons.mp hr with h1 | h1
        · subst h1; rw [nivelDe_cons]; decide
        · rcases List.mem_cons.mp h1 with h2 | h2
          · subst h2; rw [nivelDe_cons]; decide
          · rcases ociDetalhe_rotulos_uf _ _ _ _ _ h2 with
              h3 | h3 | h3 <;> (rw [h3]; decide)

/-- Witness for the amended C3 at the concrete one-row datasets: the
health-region row of the qualifications table and the macro row of the
OCI table both satisfy the proven label bounds. -/
theorem claim_C3_truncamento_uf_witness :
    nivelDe [" - REGIÃO DE SAUDE", "R", "1"] ∈ ["NIVEL", "NACIONAL", "UF",
      "MACRORREGIÃO", " - REGIÃO DE SAUDE"] ∧
    nivelDe [" - - - REGIÃO DE SAÚDE", "R", "1"] ∈ ["NIVEL", "NACIONAL",
      "REGIÃO", " - UF", " - - MACRORREGIÃO", " - - - REGIÃO DE SAÚDE"] ∧
    nivelDe [" - - MACRORREGIÃO", "M", "2", "3,00"] ∈ ["NIVEL", "NACIONAL",
      "REGIÃO", " - UF", " - - MACRORREGIÃO"] :=
  ⟨claim_C3_truncamento_uf.1 exBaseHab [("uf", "São Paulo")] exTabelaHabUF
     [" - REGIÃO DE SAUDE", "R", "1"] (by decide) (by decide) (by decide),
   claim_C3_truncamento_uf.2.1 [exRowSrv] [("uf", "São Paulo")] exTabelaSrvUF
     [" - - - REGIÃO DE SAÚDE", "R", "1"] (by decide) (by decide)
     (by decide),
   claim_C3_truncamento_uf.2.2 [exRowOci] [("uf", "São Paulo")] exTabelaOciUF
     [" - - MACRORREGIÃO", "M", "2", "3,00"] (by decide) (by decide)
     (by decide)⟩

/-! ### C8: sibling ordering -/

/-- A qualifications base whose macro names make count order and lexical
order disagree: `BBB` holds two rows, `AAA` one. -/
def exBaseHabC8 : BaseHab :=
  { rows := [
      { habilitacao := "H", uf := "SAO PAULO", macroSaude := "BBB",
        regiaoSaude := "R1", municipio := "C1", tipoUnidade := "T",
        cnes := "1", fantasia := "F1" },
      { habilitacao := "H", uf := "SAO PAULO", macroSaude := "BBB",
        regiaoSaude := "R2", municipio := "C2", tipoUnidade := "T",
        cnes := "2", fantasia := "F2" },
      { habilitacao := "H", uf := "SAO PAULO", macroSaude := "AAA",
        regiaoSaude := "R3", municipio := "C3", tipoUnidade := "T",
        cnes := "3", fantasia := "F3" }],
    temHab := true, temUF := true, temMacro := true, temRS := true,
    temMunicipio := true, temTipoUnidade := true, temCnes := true,
    temFantasia := true }

/-- C8, counterexample.  At a state selection the qualification table
lists the macro `Bbb` (two facilities) before `Aaa` (one facility): the
macro siblings follow `value_counts` — descending count — not ascending
lexical order, although `"Aaa" < "Bbb"`. -/
theorem claim_C8_contraexemplo :
    gerar_tabela_cnes_hab (some exBaseHabC8) [("uf", "São Paulo")]
      = [⟨"H", [["NIVEL", "DESCRIÇÃO", "QUANT"],
          ["NACIONAL", "BRASIL", "3"], ["UF", "Sao Paulo", "3"],
          ["MACRORREGIÃO", "Bbb", "2"],
          [" - REGIÃO DE SAUDE", "R1", "1"],
          [" - REGIÃO DE SAUDE", "R2", "1"],
          ["MACRORREGIÃO", "Aaa", "1"],
          [" - REGIÃO DE SAUDE", "R3", "1"]]⟩] ∧
    ("Aaa" : String).data < ("Bbb" : String).data := by
  decide

theorem uniqueFirstAux_sublist {α : Type} [DecidableEq α]
    (vistos l : List α) : List.Sublist (uniqueFirstAux vistos l) l := by
  induction l generalizing vistos with
  | nil => exact List.Sublist.refl []
  | cons a t ih =>
    unfold uniqueFirstAux
    split
    · exact List.Sublist.cons a (ih vistos)
    · exact List.Sublist.cons₂ a (ih (a :: vistos))

instance : IsTotal (String × ℕ) (fun a b => b.2 ≤ a.2) :=
  ⟨fun a b => Nat.le_total b.2 a.2⟩

instance : IsTrans (String × ℕ) (fun a b => b.2 ≤ a.2) :=
  ⟨fun _ _ _ h1 h2 => Nat.le_trans h2 h1⟩

instance : IsTotal (String × String) parLe :=
  ⟨fun a b => by
    unfold parLe
    rcases lt_trichotomy a.1 b.1 with h | h | h
    · exact Or.inl (Or.inl h)
    · rcases le_total a.2 b.2 with h2 | h2
      · exact Or.inl (Or.inr ⟨h, h2⟩)
      · exact Or.inr (Or.inr ⟨h.symm, h2⟩)
    · exact Or.inr (Or.inl h)⟩

instance : IsTrans (String × String) parLe :=
  ⟨fun a b c h1 h2 => by
    unfold parLe at h1 h2 ⊢
    rcases h1 with h1 | ⟨h1e, h1le⟩
    · rcases h2 with h2 | ⟨h2e, _⟩
      · exact Or.inl (h1.trans h2)
      · exact Or.inl (lt_of_lt_of_le h1 (le_of_eq h2e))
    · rcases h2 with h2 | ⟨h2e, h2le⟩
      · exact Or.inl (lt_of_le_of_lt (le_of_eq h1e) h2)
      · exact Or.inr ⟨h1e.trans h2e, h1le.trans h2le⟩⟩

/-- C8, amended.  The sibling generators of the services and procedures
walks (`sort_values().unique()` and the two-column `groupby`) iterate in
ascending lexical order; the qualification walk's siblings come from
`value_counts()` instead and are ordered by descending count — not
lexically — with the national and top-of-selection rows still first by
construction of each table. -/
theorem claim_C8_ordem_irmaos :
    (∀ l : List String, List.Sorted (· ≤ ·) (sortedUnique l)) ∧
    (∀ l : List (String × String),
      List.Sorted parLe (sortedUniquePares l)) ∧
    (∀ l : List String,
      List.Sorted (fun a b => b.2 ≤ a.2) (valueCounts l)) := by
  refine ⟨fun l => ?_, fun l => ?_, fun l => ?_⟩
  · exact List.Pairwise.sublist (uniqueFirstAux_sublist [] (sortStr l))
      (List.sorted_insertionSort _ l)
  · exact List.Pairwise.sublist
      (uniqueFirstAux_sublist [] (List.insertionSort parLe l))
      (List.sorted_insertionSort parLe l)
  · exact List.sorted_insertionSort _ _
